import Mathlib

/-!
Verification development for the Insta-Reposter repository (files `bot.py`,
`Video_bot.py`, `list_worksheets.py`).

The Python sources are shallowly embedded as pure Lean functions.  Network
calls, the external `ffmpeg` tool and the generative-caption service are
modelled by explicit oracle/environment records whose fields hold the value
(or exception) each call site would observe; `Except Unit` models a Python
call that may raise.  The local filesystem is modelled as an association
list from path to an abstract content tag; the embedded code performs
exactly the `os.remove` / `os.rename` / file-write operations the Python
code performs.  Print statements, log text and payload field values that do
not influence control flow are not modelled; the sequence of outgoing
requests that matters to the claims is recorded as an explicit event trace.
-/

set_option maxHeartbeats 1000000
set_option linter.unusedVariables false

/-! ## Filesystem model -/

/-- A filesystem: association list from path to an abstract content tag. -/
abbrev FS := List (String × Nat)

/-- Look a path up in the filesystem. -/
def FS.lookup : FS → String → Option Nat
  | [], _ => none
  | (q, c) :: fs, p => if q = p then some c else FS.lookup fs p

/-- `os.path.exists`. -/
def FS.exists (fs : FS) (p : String) : Bool :=
  (FS.lookup fs p).isSome

/-- `os.remove` (the entry disappears; removing a missing path is a no-op at
the level of the resulting map — call sites that care model the raised
`FileNotFoundError` by consulting `FS.lookup` first). -/
def FS.remove (fs : FS) (p : String) : FS :=
  fs.filter (fun e => !(e.1 = p))

/-- Writing (or overwriting) a file. -/
def FS.write (fs : FS) (p : String) (c : Nat) : FS :=
  (p, c) :: FS.remove fs p

theorem FS.lookup_remove_self (fs : FS) (p : String) :
    FS.lookup (FS.remove fs p) p = none := by
  induction fs with
  | nil => rfl
  | cons e fs ih =>
    by_cases h : e.1 = p
    · simp [FS.remove, List.filter, h] at ih ⊢
      simpa [FS.remove] using ih
    · simp [FS.remove, List.filter, h] at ih ⊢
      simpa [FS.lookup, FS.remove, h] using ih

theorem FS.lookup_remove_ne (fs : FS) (p q : String) (h : q ≠ p) :
    FS.lookup (FS.remove fs p) q = FS.lookup fs q := by
  induction fs with
  | nil => rfl
  | cons e fs ih =>
    by_cases he : e.1 = p
    · have : ¬ e.1 = q := by rw [he]; exact fun hq => h hq.symm
      simp [FS.remove, List.filter, he] at ih ⊢
      simpa [FS.lookup, this, FS.remove] using ih
    · simp [FS.remove, List.filter, he] at ih ⊢
      by_cases hq : e.1 = q
      · simp [FS.lookup, hq]
      · simpa [FS.lookup, hq, FS.remove] using ih

theorem FS.exists_remove_self (fs : FS) (p : String) :
    FS.exists (FS.remove fs p) p = false := by
  simp [FS.exists, FS.lookup_remove_self]

theorem FS.lookup_write_self (fs : FS) (p : String) (c : Nat) :
    FS.lookup (FS.write fs p c) p = some c := by
  simp [FS.write, FS.lookup]

theorem FS.lookup_write_ne (fs : FS) (p q : String) (c : Nat) (h : q ≠ p) :
    FS.lookup (FS.write fs p c) q = FS.lookup fs q := by
  have hp : ¬ (p = q) := fun hq => h hq.symm
  simp [FS.write, FS.lookup, hp]
  exact FS.lookup_remove_ne fs p q h

theorem FS.exists_write_ne (fs : FS) (p q : String) (c : Nat) (h : q ≠ p) :
    FS.exists (FS.write fs p c) q = FS.exists fs q := by
  simp [FS.exists, FS.lookup_write_ne fs p q c h]

/-! ## Python string helpers -/

/-- Python truthiness of a string: non-empty strings are truthy. -/
def pyTruthyStr (s : String) : Bool := !(s = "")

/-- Python `str.strip()` restricted to the whitespace characters the inputs
of this program can contain (space, tab, CR, LF). -/
def pyStripList (l : List Char) : List Char :=
  ((l.dropWhile Char.isWhitespace).reverse.dropWhile Char.isWhitespace).reverse

/-- Python `str.strip()` on a `String`. -/
def pyStrip (s : String) : String :=
  String.mk (pyStripList s.data)

/-- Python `str(x)` applied to an `Optional[str]`: `str(None)` is the literal
string `"None"`. -/
def pyStr : Option String → String
  | none => "None"
  | some s => s

/-! ## `Video_bot.parse_srt_content` (Video_bot.py lines 50-78) -/

/-- One separator match of the regex `\n\s*\n` starting at the head of the
character list: a newline, then a greedy whitespace run that must end with a
final newline (so the match extends to the last newline inside the maximal
whitespace run following the first newline).  Returns the characters after
the match, or `none` when the regex does not match at this position. -/
def srtSepRest : List Char → Option (List Char)
  | [] => none
  | c :: rest =>
    if c = '\n' then
      let run := rest.takeWhile Char.isWhitespace
      if run.contains '\n' then
        -- characters of the run strictly after its last newline
        let m := (run.reverse.takeWhile (fun x => !(x = '\n'))).length
        some (rest.drop (run.length - m))
      else
        none
    else
      none

/-- `re.split(r'\n\s*\n', s)`: fuel-indexed scanner (the fuel is the input
length, which always suffices because every separator consumes at least one
character). -/
def srtSplitAux : Nat → List Char → List Char → List (List Char)
  | _, [], acc => [acc.reverse]
  | 0, s, acc => [acc.reverse ++ s]
  | fuel + 1, c :: rest, acc =>
    match srtSepRest (c :: rest) with
    | some rest' => acc.reverse :: srtSplitAux fuel rest' []
    | none => srtSplitAux fuel rest (c :: acc)

/-- `str.split('\n')` on a character list. -/
def splitOnNlAux : List Char → List Char → List (List Char)
  | [], acc => [acc.reverse]
  | c :: rest, acc =>
    if c = '\n' then acc.reverse :: splitOnNlAux rest []
    else splitOnNlAux rest (c :: acc)

/-- `' '.join(...)` on character lists. -/
def joinSpace : List (List Char) → List Char
  | [] => []
  | [l] => l
  | l :: ls => l ++ ' ' :: joinSpace ls

/-- The text contributed by one SRT block: skip the first two lines
(number, timestamp), join the rest with spaces, strip; blocks with fewer
than three lines or an empty joined text contribute nothing. -/
def srtBlockText (block : List Char) : Option (List Char) :=
  let lines := splitOnNlAux (pyStripList block) []
  if lines.length < 3 then none
  else
    let text_lines := lines.drop 2
    let subtitle_text := pyStripList (joinSpace text_lines)
    if subtitle_text = [] then none else some subtitle_text

/-- `Video_bot.parse_srt_content`: strips a BOM, splits the stripped content
into blocks at blank lines (`re.split(r'\n\s*\n', ...)`), collects each
block's text, and joins them; a falsy (empty) input or an empty joined text
yields `None`. -/
def VideoBot.parse_srt_content (srt_content : String) : Option String :=
  if srt_content = "" then none
  else
    let noBom := srt_content.data.dropWhile (fun c => c = '\uFEFF')
    let stripped := pyStripList noBom
    let blocks := srtSplitAux stripped.length stripped []
    let subtitle_texts := blocks.filterMap srtBlockText
    let full_text := joinSpace subtitle_texts
    if full_text = [] then none else some (String.mk full_text)

example : VideoBot.parse_srt_content "" = none := by decide
example : VideoBot.parse_srt_content "junk" = none := by decide
example :
    VideoBot.parse_srt_content "1\n00:00 --> 00:01\nhello\n\n2\n00:01 --> 00:02\nworld" =
      some "hello world" := by decide
example : VideoBot.parse_srt_content "1\n00:00 --> 00:01\n   \n\nx" = none := by decide

/-! ## HTTP model for the Graph API publish protocol -/

/-- An HTTP response whose JSON body parses to `β`; `.json = .error ()`
models a call whose `.json()` raises (or, at call sites that match on the
whole field, a request call that raises). -/
structure Resp (β : Type) where
  status_code : Nat
  json : Except Unit β

/-- Parsed JSON body of a container-creation or commit response: the `id`
field and the structured `error` payload (modelled by its presence). -/
structure CreateBody where
  id : Option String
  error : Option String
  deriving DecidableEq

/-- Parsed JSON body of a status poll: the `status_code` field and the
structured `error` payload. -/
structure StatusBody where
  status_code : Option String
  error : Option String
  deriving DecidableEq

/-- Observable events of a publish attempt: outgoing requests and sleeps. -/
inductive Event
  | createItemContainer
  | createCarousel (children : Nat)
  | createContainer
  | pollStatus
  | commit
  | sleepSecs (n : Nat)
  | verifyHead
  | verifyGet
  deriving DecidableEq

/-- `true` for the main (parent or single) container-creation POST. -/
def Event.isMainCreate : Event → Bool
  | .createContainer => true
  | .createCarousel _ => true
  | _ => false

/-! ## `bot.publish_to_instagram` (bot.py lines 342-440) -/

/-- Oracle for one `bot.publish_to_instagram` attempt: the response each
HTTP call site would observe, in call order. -/
structure Bot.PublishEnv where
  child : Nat → Except Unit (Resp CreateBody)
  create : Except Unit (Resp CreateBody)
  poll : Nat → Except Unit (Resp StatusBody)
  commitResp : Except Unit (Resp CreateBody)

/-- Media kinds handled by the coordinator. -/
inductive MediaKind | IMAGE | VIDEO | ALBUM
  deriving DecidableEq

/-- The `media_data` argument of `bot.publish_to_instagram`: a single staged
URL, or the `(url, item_type)` list of an album. -/
inductive PubMedia
  | single (url : String)
  | items (l : List (String × String))

/-- Result of the carousel item-container creation loop. -/
inductive ItemsOut
  | exn
  | missingId
  | ok (ids : List String)

/-- bot.py lines 351-369: one container POST per album item; an exception
aborts (caught at function level), a response without `id` returns failure,
otherwise the child ids are collected in order. -/
def Bot.createItems (env : Bot.PublishEnv) (l : List (String × String))
    (idx : Nat) : ItemsOut × List Event :=
  match l with
  | [] => (.ok [], [])
  | _ :: rest =>
    match env.child idx with
    | .error _ => (.exn, [.createItemContainer])
    | .ok resp =>
      match resp.json with
      | .error _ => (.exn, [.createItemContainer])
      | .ok body =>
        match body.id with
        | none => (.missingId, [.createItemContainer])
        | some i =>
          let r := Bot.createItems env rest (idx + 1)
          (match r.1 with
           | .ok ids => .ok (i :: ids)
           | o => o,
           .createItemContainer :: r.2)

/-- Terminal states of a status-poll loop. -/
inductive PollOutcome | finished | procError | apiError | httpExn | exhausted
  deriving DecidableEq

/-- bot.py lines 412-424: up to `fuel` polls; breaks on `FINISHED`, aborts
on `ERROR`, continues (after a 10s sleep) on anything else.  The HTTP status
of the poll response is never consulted.  An exception in the request or in
`.json()` propagates to the function-level handler (`.httpExn`). -/
def Bot.statusLoop (env : Bot.PublishEnv) (attempt fuel : Nat) :
    PollOutcome × List Event :=
  match fuel with
  | 0 => (.exhausted, [])
  | fuel + 1 =>
    match env.poll attempt with
    | .error _ => (.httpExn, [.pollStatus])
    | .ok resp =>
      match resp.json with
      | .error _ => (.httpExn, [.pollStatus])
      | .ok sd =>
        if sd.status_code = some "FINISHED" then (.finished, [.pollStatus])
        else if sd.status_code = some "ERROR" then (.procError, [.pollStatus])
        else
          let r := Bot.statusLoop env (attempt + 1) fuel
          (r.1, .pollStatus :: .sleepSecs 10 :: r.2)

/-- bot.py lines 426-436: the `media_publish` commit; success is exactly the
presence of an `id` in the parsed response (HTTP status unexamined). -/
def Bot.commitStep (env : Bot.PublishEnv) (tr : List Event) :
    Bool × List Event :=
  match env.commitResp with
  | .error _ => (false, tr ++ [.commit])
  | .ok resp =>
    match resp.json with
    | .error _ => (false, tr ++ [.commit])
    | .ok pub => (pub.id.isSome, tr ++ [.commit])

/-- bot.py lines 371-436 given the child-container step's outcome: main
container creation gated only on the presence of `id` in the parsed body,
a 10s settle sleep, the status loop for video/album, and the commit.  After
the loop, bot.py falls through to the commit both when the loop broke on
`FINISHED` and when it exhausted all 30 attempts without `FINISHED`. -/
def Bot.publishMain (env : Bot.PublishEnv) (items : ItemsOut × List Event)
    (media_type : MediaKind) : Bool × List Event :=
  match items.1 with
  | .exn => (false, items.2)
  | .missingId => (false, items.2)
  | .ok item_ids =>
    let preTr := items.2 ++
      (if media_type = MediaKind.ALBUM then [Event.sleepSecs 15] else [])
    let createEv :=
      if media_type = MediaKind.ALBUM then Event.createCarousel item_ids.length
      else Event.createContainer
    match env.create with
    | .error _ => (false, preTr ++ [createEv])
    | .ok resp =>
      match resp.json with
      | .error _ => (false, preTr ++ [createEv])
      | .ok result =>
        match result.id with
        | none => (false, preTr ++ [createEv])
        | some _ =>
          let tr1 := preTr ++ [createEv, Event.sleepSecs 10]
          if media_type = MediaKind.VIDEO || media_type = MediaKind.ALBUM then
            let pl := Bot.statusLoop env 0 30
            match pl.1 with
            | .procError => (false, tr1 ++ pl.2)
            | .httpExn => (false, tr1 ++ pl.2)
            | _ => Bot.commitStep env (tr1 ++ pl.2)
          else
            Bot.commitStep env tr1

/-- `bot.publish_to_instagram`: for albums, first the per-item child
containers; then the main-container / poll / commit flow of
`Bot.publishMain`. -/
def Bot.publish_to_instagram (env : Bot.PublishEnv) (media_data : PubMedia)
    (caption : String) (media_type : MediaKind) : Bool × List Event :=
  Bot.publishMain env
    (match media_type, media_data with
     | .ALBUM, .items l => Bot.createItems env l 0
     | _, _ => (ItemsOut.ok [], []))
    media_type

/-! ## `Video_bot.publish_to_instagram` (Video_bot.py lines 400-553) -/

/-- Oracle for one `Video_bot.publish_to_instagram` attempt. -/
structure VideoBot.PublishEnv where
  head_check : Except Unit Nat
  get_check : Except Unit Nat
  create : Except Unit (Resp CreateBody)
  poll : Nat → Except Unit (Resp StatusBody)
  commitResp : Except Unit (Resp CreateBody)

/-- Video_bot.py lines 407-425: the pre-creation URL verification.  `true`
means publishing continues: a HEAD status in {200, 206}, an exception in
HEAD or in the GET fallback (the whole block is wrapped in one handler), or
a GET status in {200, 206}.  Only a GET fallback that completes with a bad
status aborts the publish. -/
def VideoBot.urlCheck (env : VideoBot.PublishEnv) : Bool × List Event :=
  match env.head_check with
  | .error _ => (true, [.verifyHead])
  | .ok s =>
    if s = 200 || s = 206 then (true, [.verifyHead])
    else
      match env.get_check with
      | .error _ => (true, [.verifyHead, .verifyGet])
      | .ok s2 =>
        if s2 = 200 || s2 = 206 then (true, [.verifyHead, .verifyGet])
        else (false, [.verifyHead, .verifyGet])

/-- Video_bot.py lines 473-507: up to `fuel` polls.  A poll whose HTTP
status is not 200 just sleeps and consumes an attempt; an `error` payload
aborts; `FINISHED` exits successfully; `ERROR` aborts; anything else sleeps
and continues.  An exception propagates to the function-level handler. -/
def VideoBot.statusLoop (env : VideoBot.PublishEnv) (attempt fuel : Nat) :
    PollOutcome × List Event :=
  match fuel with
  | 0 => (.exhausted, [])
  | fuel + 1 =>
    match env.poll attempt with
    | .error _ => (.httpExn, [.pollStatus])
    | .ok resp =>
      if resp.status_code = 200 then
        match resp.json with
        | .error _ => (.httpExn, [.pollStatus])
        | .ok sd =>
          if sd.error.isSome then (.apiError, [.pollStatus])
          else if sd.status_code = some "FINISHED" then (.finished, [.pollStatus])
          else if sd.status_code = some "ERROR" then (.procError, [.pollStatus])
          else
            let r := VideoBot.statusLoop env (attempt + 1) fuel
            (r.1, .pollStatus :: .sleepSecs 10 :: r.2)
      else
        let r := VideoBot.statusLoop env (attempt + 1) fuel
        (r.1, .pollStatus :: .sleepSecs 10 :: r.2)

/-- `Video_bot.publish_to_instagram`: URL verification, container creation
(aborting on non-200 HTTP status, an `error` payload, or a missing `id`),
a 10s settle sleep, the bounded status loop with an explicit
`status_finished` timeout guard, and the commit (same three checks). -/
def VideoBot.publish_to_instagram (env : VideoBot.PublishEnv)
    (video_url caption : String) : Bool × List Event :=
  let vc := VideoBot.urlCheck env
  if vc.1 = false then (false, vc.2)
  else
    match env.create with
    | .error _ => (false, vc.2 ++ [Event.createContainer])
    | .ok resp =>
      if resp.status_code = 200 then
        match resp.json with
        | .error _ => (false, vc.2 ++ [Event.createContainer])
        | .ok result =>
          if result.error.isSome then (false, vc.2 ++ [Event.createContainer])
          else
            match result.id with
            | none => (false, vc.2 ++ [Event.createContainer])
            | some _ =>
              let tr1 := vc.2 ++ [Event.createContainer, Event.sleepSecs 10]
              let pl := VideoBot.statusLoop env 0 30
              match pl.1 with
              | .finished =>
                (match env.commitResp with
                 | .error _ => (false, tr1 ++ pl.2 ++ [Event.commit])
                 | .ok pr =>
                   if pr.status_code = 200 then
                     match pr.json with
                     | .error _ => (false, tr1 ++ pl.2 ++ [Event.commit])
                     | .ok pub =>
                       if pub.error.isSome then
                         (false, tr1 ++ pl.2 ++ [Event.commit])
                       else (pub.id.isSome, tr1 ++ pl.2 ++ [Event.commit])
                   else (false, tr1 ++ pl.2 ++ [Event.commit]))
              | _ => (false, tr1 ++ pl.2)
      else (false, vc.2 ++ [Event.createContainer])

/-! ## `reencode_video` (bot.py lines 237-278; textually identical in
Video_bot.py lines 293-330) -/

/-- Behaviour of the external `ffmpeg` invocation: the tool is missing
(`FileNotFoundError` from `subprocess.run`), or it ran, exited with
`returncode`, and — exactly when it exited 0 — wrote the output file with
content `out`. -/
inductive ToolOutcome
  | missing
  | ran (returncode : Nat) (out : Nat)

/-- Tool-missing or non-zero exit status. -/
def ToolOutcome.failed : ToolOutcome → Bool
  | .missing => true
  | .ran rc _ => !(rc = 0)

/-- Python `s.replace(pat, repl)` (all occurrences, left to right,
non-overlapping; `pat` is assumed non-empty, as at every call site). -/
def pyReplaceAux (pat repl : List Char) : Nat → List Char → List Char
  | _, [] => []
  | 0, s => s
  | fuel + 1, c :: rest =>
    if pat.isPrefixOf (c :: rest) then
      repl ++ pyReplaceAux pat repl fuel ((c :: rest).drop pat.length)
    else
      c :: pyReplaceAux pat repl fuel rest

/-- Python `s.replace(pat, repl)` on `String`s. -/
def pyReplace (s pat repl : String) : String :=
  String.mk (pyReplaceAux pat.data repl.data s.data.length s.data)

/-- `reencode_video`: on a zero exit status the output replaces the input
(`os.remove` then `os.rename`; an `OSError` from either is caught by the
surrounding handler, which returns the input path with the filesystem as it
then stands); on a missing tool or a non-zero exit status the input path is
returned and the filesystem is untouched.  In every case the returned path
is the input path. -/
def reencode_video (tool : ToolOutcome) (input_path : String) (fs : FS) :
    String × FS :=
  let output_path := pyReplace input_path ".mp4" "_reencoded.mp4"
  match tool with
  | .missing => (input_path, fs)
  | .ran rc out =>
    if rc = 0 then
      let fs1 := FS.write fs output_path out
      match FS.lookup fs1 input_path with
      | none => (input_path, fs1)
      | some _ =>
        let fs2 := FS.remove fs1 input_path
        match FS.lookup fs2 output_path with
        | none => (input_path, fs2)
        | some c =>
          (input_path, FS.write (FS.remove fs2 output_path) input_path c)
    else (input_path, fs)

/-! ## `upload_to_tmpfiles` (bot.py lines 280-302, Video_bot.py lines
332-398) -/

/-- Parsed JSON body of the tmpfiles.org upload response: the `status`
field, and `data.url` (absence of either nested key models the `KeyError`
the Python code would raise there). -/
structure UploadBody where
  status : Option String
  data_url : Option String

/-- Oracle for one uploader run: the multipart POST response, and the HEAD
and streamed-GET statuses of the verification probe. -/
structure UploadEnv where
  post : Except Unit (Resp UploadBody)
  head : Except Unit Nat
  get : Except Unit Nat

/-- Events of one uploader run. -/
inductive UpEvent | uploadPost | headProbe | getProbe
  deriving DecidableEq

/-- `bot.upload_to_tmpfiles`: POST, parse, check `status == 'success'`,
rewrite the browsable URL into the direct-download URL, and return it.
The HTTP status code is not examined and no reachability probe of the
resulting URL is performed. -/
def Bot.upload_to_tmpfiles (env : UploadEnv) (file_path : String) :
    Option String × List UpEvent :=
  match env.post with
  | .error _ => (none, [.uploadPost])
  | .ok resp =>
    match resp.json with
    | .error _ => (none, [.uploadPost])
    | .ok result =>
      if result.status = some "success" then
        match result.data_url with
        | none => (none, [.uploadPost])
        | some url =>
          (some (pyReplace url "tmpfiles.org/" "tmpfiles.org/dl/"),
           [.uploadPost])
      else (none, [.uploadPost])

/-- `Video_bot.upload_to_tmpfiles`: POST (non-200 HTTP status or an
exception or a non-`success` payload fails), URL rewrite, then the
post-upload probe: HEAD; on a non-200 HEAD status a streamed GET; an
exception anywhere in the probe still returns the URL; only a GET that
completes with a non-200 status returns failure. -/
def VideoBot.upload_to_tmpfiles (env : UploadEnv) (file_path : String) :
    Option String × List UpEvent :=
  match env.post with
  | .error _ => (none, [.uploadPost])
  | .ok resp =>
    if resp.status_code = 200 then
      match resp.json with
      | .error _ => (none, [.uploadPost])
      | .ok result =>
        if result.status = some "success" then
          match result.data_url with
          | none => (none, [.uploadPost])
          | some url =>
            let direct_url := pyReplace url "tmpfiles.org/" "tmpfiles.org/dl/"
            match env.head with
            | .error _ => (some direct_url, [.uploadPost, .headProbe])
            | .ok s =>
              if s = 200 then (some direct_url, [.uploadPost, .headProbe])
              else
                match env.get with
                | .error _ =>
                  (some direct_url, [.uploadPost, .headProbe, .getProbe])
                | .ok s2 =>
                  if s2 = 200 then
                    (some direct_url, [.uploadPost, .headProbe, .getProbe])
                  else (none, [.uploadPost, .headProbe, .getProbe])
        else (none, [.uploadPost])
    else (none, [.uploadPost])

/-! ## `bot.download_media` (bot.py lines 28-235) -/

/-- Media metadata as the structured calls return it, or as projected into
the duck-typed `DummyInfo` by the raw fallback: exactly the fields bot.py
reads.  `resources` holds the `media_type` of each album resource (possibly
absent on raw items). -/
structure MInfo where
  media_type : Option Nat
  product_type : String
  username : Option String
  resources : List (Option Nat)

/-- One entry of `carousel_media` in the raw info payload. -/
structure RawCarouselItem where
  media_type : Option Nat
  image_candidates : List String
  video_versions : List String

/-- The first entry of `items` in the raw `media/{pk}/info/` payload:
the fields the fallback paths read.  An empty `image_candidates` /
`video_versions` list models the corresponding key being absent or empty. -/
structure RawItem where
  media_type : Option Nat
  product_type : String
  username : Option String
  video_versions : List String
  video_url : Option String
  image_candidates : List String
  carousel_media : Option (List RawCarouselItem)

/-- The raw info payload: its `items` list. -/
structure RawInfo where
  items : List RawItem

/-- Oracle for one `download_media` run: what each library or HTTP call
would produce (`.error ()` = the call raises).  The raw
`media/{pk}/info/` endpoint is queried at several fallback sites; being one
deterministic remote resource it is modelled by the single field
`private_request`.  Cookie loading (bot.py lines 32-55) only mutates
session state inside its own handler and does not affect the return value,
so it is not modelled. -/
structure DMEnv where
  media_pk : Except Unit Nat
  media_info : Except Unit MInfo
  media_info_gql : Except Unit MInfo
  media_info_a1 : Except Unit MInfo
  private_request : Except Unit RawInfo
  photo_download : Except Unit String
  clip_download : Except Unit String
  video_download : Except Unit String
  album_download : Except Unit (List String)
  direct_get : Except Unit Unit

/-- The `(media_data, media_type)` pair `download_media` returns, bundled
by kind: a photo path, a video path, or an album's `(path, item_type)`
list. -/
inductive BotMedia
  | image (path : String)
  | video (path : String)
  | album (items : List (String × String))
  deriving DecidableEq

/-- What `download_media` hands back to `process_single_link`: either the
`(media_data, media_type, username)` triple (with the data possibly
`None`), or — on the code paths that fall off the end of the function — a
bare `None` that cannot be unpacked into three values. -/
inductive DownloadRet
  | triple (md : Option BotMedia) (username : Option String)
  | bareNone
  deriving DecidableEq

/-- bot.py lines 60-103: the four-stage metadata chain (`media_info`,
`media_info_gql`, `media_info_a1`, then the raw request projected into a
`DummyInfo`).  `none` = all stages failed. -/
def dmMetadata (env : DMEnv) : Option MInfo :=
  match env.media_info with
  | .ok mi => some mi
  | .error _ =>
    match env.media_info_gql with
    | .ok mi => some mi
    | .error _ =>
      match env.media_info_a1 with
      | .ok mi => some mi
      | .error _ =>
        match env.private_request with
        | .error _ => none
        | .ok raw =>
          match raw.items with
          | [] => none
          | item :: _ =>
            some { media_type := item.media_type
                   product_type := item.product_type
                   username := item.username
                   resources :=
                     match item.carousel_media with
                     | some l => l.map (fun r => r.media_type)
                     | none => [] }

/-- bot.py lines 115-135: the photo branch.  Library download, then the
raw-request direct download; when the raw payload has no items the fallback
block completes without setting `local_path` and line 135 returns
`str(None) = "None"` as the path. -/
def dmPhoto (env : DMEnv) (pk : Nat) (username : Option String) :
    DownloadRet :=
  match env.photo_download with
  | .ok p => DownloadRet.triple (some (BotMedia.image p)) username
  | .error _ =>
    match env.private_request with
    | .error _ => DownloadRet.triple none none
    | .ok raw =>
      match raw.items with
      | [] => DownloadRet.triple (some (BotMedia.image "None")) username
      | item :: _ =>
        match item.image_candidates with
        | [] => DownloadRet.triple none none
        | _ :: _ =>
          match env.direct_get with
          | .error _ => DownloadRet.triple none none
          | .ok _ =>
            DownloadRet.triple
              (some (BotMedia.image
                (pyStr username ++ "_" ++ toString pk ++ ".jpg"))) username

/-- bot.py lines 137-174: the video branch.  `clip_download` for clips,
`video_download` otherwise; on failure the raw request supplies
`video_versions[0].url` or `video_url`; no URL at all returns the failure
triple; an empty raw `items` list falls through to line 174 and returns
the path `str(None) = "None"`. -/
def dmVideo (env : DMEnv) (pk : Nat) (mi : MInfo) (username : Option String) :
    DownloadRet :=
  let libDl :=
    if mi.product_type = "clips" then env.clip_download else env.video_download
  match libDl with
  | .ok p => DownloadRet.triple (some (BotMedia.video p)) username
  | .error _ =>
    match env.private_request with
    | .error _ => DownloadRet.triple none none
    | .ok raw =>
      match raw.items with
      | [] => DownloadRet.triple (some (BotMedia.video "None")) username
      | item :: _ =>
        let video_url :=
          match item.video_versions with
          | u :: _ => some u
          | [] => item.video_url
        match video_url with
        | none => DownloadRet.triple none none
        | some _ =>
          match env.direct_get with
          | .error _ => DownloadRet.triple none none
          | .ok _ =>
            DownloadRet.triple
              (some (BotMedia.video
                (pyStr username ++ "_" ++ toString pk ++ ".mp4"))) username

/-- `str.split(sep)` on a character list, for a one-character separator. -/
def splitOnCharAux (sep : Char) : List Char → List Char → List (List Char)
  | [], acc => [acc.reverse]
  | c :: rest, acc =>
    if c = sep then acc.reverse :: splitOnCharAux sep rest []
    else splitOnCharAux sep rest (c :: acc)

/-- bot.py lines 187-188: item type from the filename extension
(`p.lower().split('.')[-1]`). -/
def extKind (p : String) : String :=
  let lowered := p.data.map Char.toLower
  let ext := String.mk ((splitOnCharAux '.' lowered []).getLastD [])
  if ext = "jpg" || ext = "jpeg" || ext = "png" then "IMAGE" else "VIDEO"

/-- bot.py lines 181-189: item types for a successful `album_download`:
from `resources[i].media_type` when available, else from the extension. -/
def dmAlbumItems (mi : MInfo) (paths : List String) : List (String × String) :=
  (List.range paths.length).zip paths |>.map (fun ip =>
    (ip.2,
     if !(mi.resources.length = 0) && ip.1 < mi.resources.length then
       (if mi.resources.getD ip.1 none = some 1 then "IMAGE" else "VIDEO")
     else extKind ip.2))

/-- bot.py lines 201-219: per-carousel-item direct download.  A photo item
with no image candidates raises a `KeyError` (failure triple); a video item
with no `video_versions` has `url = None` and is skipped; other media types
are skipped; a streaming error yields the failure triple. -/
def dmCarousel (env : DMEnv) (pk : Nat) (username : Option String) :
    List RawCarouselItem → Nat → List (String × String) → DownloadRet
  | [], _, acc => DownloadRet.triple (some (BotMedia.album acc.reverse)) username
  | ci :: rest, idx, acc =>
    if ci.media_type = some 1 then
      match ci.image_candidates with
      | [] => DownloadRet.triple none none
      | _ :: _ =>
        match env.direct_get with
        | .error _ => DownloadRet.triple none none
        | .ok _ =>
          dmCarousel env pk username rest (idx + 1)
            ((pyStr username ++ "_" ++ toString pk ++ "_" ++ toString idx
              ++ ".jpg", "IMAGE") :: acc)
    else if ci.media_type = some 2 then
      match ci.video_versions with
      | [] => dmCarousel env pk username rest (idx + 1) acc
      | _ :: _ =>
        match env.direct_get with
        | .error _ => DownloadRet.triple none none
        | .ok _ =>
          dmCarousel env pk username rest (idx + 1)
            ((pyStr username ++ "_" ++ toString pk ++ "_" ++ toString idx
              ++ ".mp4", "VIDEO") :: acc)
    else dmCarousel env pk username rest (idx + 1) acc

/-- bot.py lines 176-224: the album branch.  On `album_download` failure,
the raw request is consulted; a payload with no items, or an item without
`carousel_media`, lets control fall off the end of the function — the
implicit bare `None` return. -/
def dmAlbum (env : DMEnv) (pk : Nat) (mi : MInfo) (username : Option String) :
    DownloadRet :=
  match env.album_download with
  | .ok paths =>
    DownloadRet.triple (some (BotMedia.album (dmAlbumItems mi paths))) username
  | .error _ =>
    match env.private_request with
    | .error _ => DownloadRet.triple none none
    | .ok raw =>
      match raw.items with
      | [] => DownloadRet.bareNone
      | item :: _ =>
        match item.carousel_media with
        | none => DownloadRet.bareNone
        | some carousel => dmCarousel env pk username carousel 0 []

/-- `bot.download_media`: handle resolution, the metadata chain, then the
per-type download branch; any unknown media type (or a missing one on a raw
projection) returns the failure triple. -/
def Bot.download_media (env : DMEnv) : DownloadRet :=
  match env.media_pk with
  | .error _ => DownloadRet.triple none none
  | .ok pk =>
    match dmMetadata env with
    | none => DownloadRet.triple none none
    | some mi =>
      let username := mi.username
      if mi.media_type = some 1 then dmPhoto env pk username
      else if mi.media_type = some 2 then dmVideo env pk mi username
      else if mi.media_type = some 8 then dmAlbum env pk mi username
      else DownloadRet.triple none none

/-! ## `bot.process_single_link` (bot.py lines 442-529) -/

/-- Python truthiness of an `Optional[str]`. -/
def optTruthy : Option String → Bool
  | none => false
  | some s => !(s = "")

/-- Python truthiness of the `media_data` value. -/
def BotMedia.pyTruthy : BotMedia → Bool
  | .image p => !(p = "")
  | .video p => !(p = "")
  | .album l => !(l = [])

/-- The local paths of a returned media value. -/
def BotMedia.paths : BotMedia → List String
  | .image p => [p]
  | .video p => [p]
  | .album l => l.map (fun x => x.1)

/-- The filesystem effect of a successful download: the returned paths
exist on disk (content tag 0). -/
def downloadEffect (md : BotMedia) (fs : FS) : FS :=
  (BotMedia.paths md).foldl (fun fs p => FS.write fs p 0) fs

/-- The cleanup loop: `for p: if os.path.exists(p): os.remove(p)`. -/
def cleanupList (fs : FS) (l : List String) : FS :=
  l.foldl (fun fs p => if FS.exists fs p then FS.remove fs p else fs) fs

/-- Oracle for one `process_single_link` run beyond the download:
`download` is the value `download_media` returned, `analyze` the opaque
Gemini caption (per-call constant), `tool` the ffmpeg behaviour, `up` the
tmpfiles responses for each uploaded path, `pub` the Graph API responses. -/
structure Bot.LinkEnv where
  download : DownloadRet
  analyze : Option String
  tool : ToolOutcome
  up : String → UploadEnv
  pub : Bot.PublishEnv

/-- bot.py lines 470-480: per-item re-encode (videos only) and upload;
items whose upload fails are dropped from `album_urls`. -/
def Bot.albumLoop (env : Bot.LinkEnv) :
    List (String × String) → FS → List (String × String) × FS
  | [], fs => ([], fs)
  | (path, m_t) :: rest, fs =>
    let pr := if m_t = "VIDEO" then reencode_video env.tool path fs
              else (path, fs)
    let url := (Bot.upload_to_tmpfiles (env.up pr.1) pr.1).1
    let r := Bot.albumLoop env rest pr.2
    match url with
    | some u => ((u, m_t) :: r.1, r.2)
    | none => r

/-- Result of a pipeline call as its caller observes it: a returned
boolean, or an exception propagating out of the function. -/
inductive PyResult
  | ok (b : Bool)
  | exn
  deriving DecidableEq

/-- bot.py lines 455-489: the album branch of `process_single_link`, given
the filesystem as it stands after the download — truncate to 10 items,
caption from the first item, re-encode/upload each, publish when at least
one upload succeeded, then cleanup of the (truncated) item paths. -/
def Bot.albumBranch (env : Bot.LinkEnv) (items0 : List (String × String))
    (fs1 : FS) : PyResult × FS × List Event :=
  let media_data := if 10 < items0.length then items0.take 10 else items0
  if optTruthy env.analyze = false then
    (.ok false, cleanupList fs1 (media_data.map (fun x => x.1)), [])
  else
    let up := Bot.albumLoop env media_data fs1
    let res :=
      if up.1.length = 0 then (false, ([] : List Event))
      else Bot.publish_to_instagram env.pub (PubMedia.items up.1) ""
             MediaKind.ALBUM
    (.ok res.1, cleanupList up.2 (media_data.map (fun x => x.1)), res.2)

/-- bot.py lines 491-522, image case: caption, upload, publish, cleanup. -/
def Bot.imageBranch (env : Bot.LinkEnv) (p : String) (fs1 : FS) :
    PyResult × FS × List Event :=
  if optTruthy env.analyze = false then
    (.ok false, cleanupList fs1 [p], [])
  else
    match (Bot.upload_to_tmpfiles (env.up p) p).1 with
    | none => (.ok false, cleanupList fs1 [p], [])
    | some u =>
      let res := Bot.publish_to_instagram env.pub (PubMedia.single u) ""
                   MediaKind.IMAGE
      (.ok res.1, cleanupList fs1 [p], res.2)

/-- bot.py lines 491-522, video case: caption, re-encode, upload, publish,
cleanup (the cleanup removes `media_data`, i.e. the original path). -/
def Bot.videoBranch (env : Bot.LinkEnv) (p : String) (fs1 : FS) :
    PyResult × FS × List Event :=
  if optTruthy env.analyze = false then
    (.ok false, cleanupList fs1 [p], [])
  else
    let pr := reencode_video env.tool p fs1
    match (Bot.upload_to_tmpfiles (env.up pr.1) pr.1).1 with
    | none => (.ok false, cleanupList pr.2 [p], [])
    | some u =>
      let res := Bot.publish_to_instagram env.pub (PubMedia.single u) ""
                   MediaKind.VIDEO
      (.ok res.1, cleanupList pr.2 [p], res.2)

/-- `bot.process_single_link`: unpack the download result (a bare `None`
raises a `TypeError` at line 445, outside the `try`), check truthiness,
then the album branch or the single-media branch; each branch ends in the
cleanup block.  Returns the outcome, the final filesystem and the
publish-protocol event trace. -/
def Bot.process_single_link (env : Bot.LinkEnv) (fs0 : FS) :
    PyResult × FS × List Event :=
  match env.download with
  | .bareNone => (.exn, fs0, [])
  | .triple md _username =>
    match md with
    | none => (.ok false, fs0, [])
    | some media =>
      if media.pyTruthy = false then (.ok false, fs0, [])
      else
        let fs1 := downloadEffect media fs0
        match media with
        | BotMedia.album items0 => Bot.albumBranch env items0 fs1
        | BotMedia.image p => Bot.imageBranch env p fs1
        | BotMedia.video p => Bot.videoBranch env p fs1

/-! ## `Video_bot.process_single_row` (Video_bot.py lines 594-681) -/

/-- Oracle for one `process_single_row` run: the SRT download, the caption
call, the `test_url_for_instagram` verdict, the `download_video` result,
the ffmpeg behaviour, the uploader responses and the publish responses. -/
structure VideoBot.RowEnv where
  srt : Option String
  caption : Option String
  url_ok : Bool
  video : Option String
  tool : ToolOutcome
  up : UploadEnv
  pub : VideoBot.PublishEnv

/-- `Video_bot.process_single_row`: SRT fetch and parse, caption, URL
probe; when the original URL is not usable: download (the file appears on
disk), re-encode, upload (failure returns `False` at line 649, before the
cleanup block), URL-format check (same), publish, then the cleanup block,
which removes `processed_video` and — when distinct — `video_path`. -/
def VideoBot.process_single_row (env : VideoBot.RowEnv)
    (video_link : String) (fs0 : FS) : Bool × FS :=
  match env.srt with
  | none => (false, fs0)
  | some srt_content =>
    if srt_content = "" then (false, fs0)
    else
      match VideoBot.parse_srt_content srt_content with
      | none => (false, fs0)
      | some srt_text =>
        if srt_text = "" then (false, fs0)
        else if optTruthy env.caption = false then (false, fs0)
        else if env.url_ok then
          ((VideoBot.publish_to_instagram env.pub video_link "").1, fs0)
        else
          match env.video with
          | none => (false, fs0)
          | some video_path =>
            let fs1 := FS.write fs0 video_path 0
            let pr := reencode_video env.tool video_path fs1
            let processed_video := pr.1
            match (VideoBot.upload_to_tmpfiles env.up processed_video).1 with
            | none => (false, pr.2)
            | some public_url =>
              if ("http".data.isPrefixOf public_url.data) = false then
                (false, pr.2)
              else
                let success :=
                  (VideoBot.publish_to_instagram env.pub public_url "").1
                let fs2 :=
                  if FS.exists pr.2 processed_video then
                    FS.remove pr.2 processed_video
                  else pr.2
                let fs3 :=
                  if FS.exists fs2 video_path
                      && !(video_path = processed_video) then
                    FS.remove fs2 video_path
                  else fs2
                (success, fs3)

/-! ## Driver row selection (bot.py lines 584-607, Video_bot.py lines
754-807) -/

/-- bot.py main loop (lines 588-596): the pipeline runs on a row exactly
when it has at least 5 columns, a truthy url cell (column A) and a falsy
`runever` cell (column 5, unstripped). -/
def Bot.rowRuns (row : List String) : Bool :=
  if row.length < 5 then false
  else
    let url := row.getD 0 ""
    let runever := row.getD 4 ""
    pyTruthyStr url && !(pyTruthyStr runever)

/-- Video_bot.py line 765: the stripped status cell (column F). -/
def VideoBot.rowStatus (row : List String) : String :=
  if 5 < row.length then pyStrip (row.getD 5 "") else ""

/-- Video_bot.py line 762: the stripped video link (column A). -/
def VideoBot.rowVideoLink (row : List String) : String :=
  pyStrip (row.getD 0 "")

/-- Video_bot.py lines 763-773: the stripped SRT link — column E when
non-empty, else column B. -/
def VideoBot.rowSrtLink (row : List String) : String :=
  let srt_link_e := if 4 < row.length then pyStrip (row.getD 4 "") else ""
  let srt_link_b := if 1 < row.length then pyStrip (row.getD 1 "") else ""
  if srt_link_e = "" then srt_link_b else srt_link_e

/-- Video_bot.py main loop (lines 758-789): the pipeline runs on a row
exactly when it has at least 2 columns, the stripped status (column F) is
not the case-insensitive word "yes" (`status and status.lower() == "yes"`),
the stripped video link is non-empty, and a stripped SRT link is
non-empty. -/
def VideoBot.rowRuns (row : List String) : Bool :=
  if row.length < 2 then false
  else if pyTruthyStr (VideoBot.rowStatus row)
      && (String.mk ((VideoBot.rowStatus row).data.map Char.toLower) = "yes") then
    false
  else if VideoBot.rowVideoLink row = "" then false
  else if VideoBot.rowSrtLink row = "" then false
  else true

/-- Events of one driver-loop row iteration. -/
inductive DriverEvent
  | processRow
  | updateCell (col : Nat) (v : String)
  | sleepSecs (n : Nat)
  deriving DecidableEq

/-- Video_bot.py lines 754-807: handling of one queue row.  When the row
is due the pipeline runs; on success the status cell is set to `"Yes"`; on
failure it is set to `"No"` and then the inter-job pacing sleep of
`POST_INTERVAL_MINUTES * 60` seconds executes — the sleep statement sits
inside the failure branch. -/
def VideoBot.handleRow (row : List String) (result : Bool) (interval : Nat) :
    List DriverEvent :=
  if VideoBot.rowRuns row then
    if result then [.processRow, .updateCell 6 "Yes"]
    else [.processRow, .updateCell 6 "No", .sleepSecs (interval * 60)]
  else []

/-! ## Helper lemmas -/

theorem FS.exists_write_self (fs : FS) (p : String) (c : Nat) :
    FS.exists (FS.write fs p c) p = true := by
  simp [FS.exists, FS.lookup_write_self]

theorem FS.exists_remove_ne (fs : FS) (p q : String) (h : q ≠ p) :
    FS.exists (FS.remove fs p) q = FS.exists fs q := by
  simp [FS.exists, FS.lookup_remove_ne fs p q h]

theorem cleanupList_absent (l : List String) (fs : FS) (p : String)
    (h : FS.exists fs p = false) :
    FS.exists (cleanupList fs l) p = false := by
  induction l generalizing fs with
  | nil => simpa [cleanupList] using h
  | cons q rest ih =>
    show FS.exists (cleanupList (if FS.exists fs q then FS.remove fs q else fs) rest) p = false
    by_cases hq : FS.exists fs q
    · simp only [hq, if_true]
      by_cases hpq : p = q
      · exact ih _ (by simpa [hpq] using FS.exists_remove_self fs q)
      · exact ih _ (by rw [FS.exists_remove_ne fs q p hpq]; exact h)
    · simp only [hq, if_false]
      exact ih _ h

theorem cleanupList_mem (l : List String) (fs : FS) (p : String)
    (h : p ∈ l) :
    FS.exists (cleanupList fs l) p = false := by
  induction l generalizing fs with
  | nil => cases h
  | cons q rest ih =>
    show FS.exists (cleanupList (if FS.exists fs q then FS.remove fs q else fs) rest) p = false
    rcases List.mem_cons.mp h with hpq | hmem
    · subst hpq
      by_cases hq : FS.exists fs p
      · simp only [hq, if_true]
        by_cases hrest : p ∈ rest
        · exact ih _ hrest
        · exact cleanupList_absent rest _ p (FS.exists_remove_self fs p)
      · simp only [hq, if_false]
        exact cleanupList_absent rest fs p (by simpa using Bool.not_eq_true _ ▸ (by simpa using hq))
    · exact ih _ hmem

theorem reencode_video_fst (tool : ToolOutcome) (p : String) (fs : FS) :
    (reencode_video tool p fs).1 = p := by
  cases tool with
  | missing => rfl
  | ran rc out =>
    show (reencode_video (.ran rc out) p fs).1 = p
    unfold reencode_video
    by_cases h : rc = 0
    · simp only [h, if_true]
      cases FS.lookup (FS.write fs (pyReplace p ".mp4" "_reencoded.mp4") out) p with
      | none => rfl
      | some c =>
        cases FS.lookup (FS.remove (FS.write fs (pyReplace p ".mp4" "_reencoded.mp4") out) p)
            (pyReplace p ".mp4" "_reencoded.mp4") with
        | none => rfl
        | some c2 => rfl
    · simp [h]

theorem reencode_keeps_output_absent (tool : ToolOutcome) (p : String) (fs : FS)
    (hne : ¬ pyReplace p ".mp4" "_reencoded.mp4" = p)
    (hin : FS.exists fs p = true)
    (habs : FS.exists fs (pyReplace p ".mp4" "_reencoded.mp4") = false) :
    FS.exists ((reencode_video tool p fs).2) (pyReplace p ".mp4" "_reencoded.mp4") = false := by
  cases tool with
  | missing => simpa [reencode_video] using habs
  | ran rc out =>
    unfold reencode_video
    by_cases h : rc = 0
    · simp only [h, if_true]
      obtain ⟨c, hc⟩ := Option.isSome_iff_exists.mp (by simpa [FS.exists] using hin)
      have hlook : FS.lookup (FS.write fs (pyReplace p ".mp4" "_reencoded.mp4") out) p
          = some c := by
        rw [FS.lookup_write_ne fs (pyReplace p ".mp4" "_reencoded.mp4") p out
          (fun hq => hne hq.symm)]
        exact hc
      simp only [hlook]
      have hlook2 : FS.lookup
          (FS.remove (FS.write fs (pyReplace p ".mp4" "_reencoded.mp4") out) p)
          (pyReplace p ".mp4" "_reencoded.mp4") = some out := by
        rw [FS.lookup_remove_ne _ p _ hne]
        exact FS.lookup_write_self fs (pyReplace p ".mp4" "_reencoded.mp4") out
      simp only [hlook2]
      rw [FS.exists_write_ne _ p _ out hne]
      exact FS.exists_remove_self _ _
    · simpa [h] using habs

theorem Bot.createItems_trace (env : Bot.PublishEnv)
    (l : List (String × String)) (idx : Nat) :
    ∀ e ∈ (Bot.createItems env l idx).2, e = Event.createItemContainer := by
  induction l generalizing idx with
  | nil => intro e he; cases he
  | cons hd rest ih =>
    intro e he
    obtain ⟨path, m_t⟩ := hd
    unfold Bot.createItems at he
    cases hc : env.child idx with
    | error u => simp [hc] at he; exact he
    | ok resp =>
      cases hj : resp.json with
      | error u => simp [hc, hj] at he; exact he
      | ok body =>
        cases hid : body.id with
        | none => simp [hc, hj, hid] at he; exact he
        | some i =>
          simp [hc, hj, hid] at he
          rcases he with he | he
          · exact he
          · exact ih (idx + 1) e he

theorem Bot.createItems_ok_length (env : Bot.PublishEnv)
    (l : List (String × String)) (idx : Nat) (ids : List String)
    (h : (Bot.createItems env l idx).1 = ItemsOut.ok ids) :
    ids.length ≤ l.length := by
  induction l generalizing idx ids with
  | nil =>
    simp [Bot.createItems] at h
    simp [← h]
  | cons hd rest ih =>
    obtain ⟨path, m_t⟩ := hd
    unfold Bot.createItems at h
    cases hc : env.child idx with
    | error u => simp [hc] at h
    | ok resp =>
      cases hj : resp.json with
      | error u => simp [hc, hj] at h
      | ok body =>
        cases hid : body.id with
        | none => simp [hc, hj, hid] at h
        | some i =>
          simp only [hc, hj, hid] at h
          cases hr : (Bot.createItems env rest (idx + 1)).1 with
          | ok ids2 =>
            simp [hr] at h
            have := ih (idx + 1) ids2 hr
            simp [← h, List.length_cons]
            omega
          | exn => simp [hr] at h
          | missingId => simp [hr] at h

theorem Bot.createItems_len (env : Bot.PublishEnv)
    (l : List (String × String)) (idx : Nat) :
    (Bot.createItems env l idx).2.length ≤ l.length := by
  induction l generalizing idx with
  | nil => exact Nat.le_refl 0
  | cons hd rest ih =>
    obtain ⟨path, m_t⟩ := hd
    unfold Bot.createItems
    cases hc : env.child idx with
    | error u => simp [hc]
    | ok resp =>
      cases hj : resp.json with
      | error u => simp [hc, hj]
      | ok body =>
        cases hid : body.id with
        | none => simp [hc, hj, hid]
        | some i =>
          simp only [hc, hj, hid, List.length_cons]
          have := ih (idx + 1)
          omega

theorem Bot.statusLoop_trace (env : Bot.PublishEnv) :
    ∀ (fuel attempt : Nat), ∀ e ∈ (Bot.statusLoop env attempt fuel).2,
      e = Event.pollStatus ∨ e = Event.sleepSecs 10 := by
  intro fuel
  induction fuel with
  | zero => intro attempt e he; cases he
  | succ n ih =>
    intro attempt e he
    unfold Bot.statusLoop at he
    cases hp : env.poll attempt with
    | error u => simp [hp] at he; exact Or.inl he
    | ok resp =>
      cases hj : resp.json with
      | error u => simp [hp, hj] at he; exact Or.inl he
      | ok sd =>
        by_cases hf : sd.status_code = some "FINISHED"
        · simp [hp, hj, hf] at he; exact Or.inl he
        · by_cases herr : sd.status_code = some "ERROR"
          · simp [hp, hj, hf, herr] at he; exact Or.inl he
          · simp [hp, hj, hf, herr] at he
            rcases he with he | he | he
            · exact Or.inl he
            · exact Or.inr he
            · exact ih (attempt + 1) e he

theorem VideoBot.statusLoop_events (env : VideoBot.PublishEnv) :
    ∀ (fuel attempt : Nat), ∀ e ∈ (VideoBot.statusLoop env attempt fuel).2,
      e = Event.pollStatus ∨ e = Event.sleepSecs 10 := by
  intro fuel
  induction fuel with
  | zero => intro attempt e he; cases he
  | succ n ih =>
    intro attempt e he
    unfold VideoBot.statusLoop at he
    cases hp : env.poll attempt with
    | error u => simp [hp] at he; exact Or.inl he
    | ok resp =>
      by_cases hs : resp.status_code = 200
      · cases hj : resp.json with
        | error u => simp [hp, hs, hj] at he; exact Or.inl he
        | ok sd =>
          by_cases he2 : sd.error.isSome
          · simp [hp, hs, hj, he2] at he; exact Or.inl he
          · by_cases hf : sd.status_code = some "FINISHED"
            · simp [hp, hs, hj, he2, hf] at he; exact Or.inl he
            · by_cases herr : sd.status_code = some "ERROR"
              · simp [hp, hs, hj, he2, hf, herr] at he; exact Or.inl he
              · simp [hp, hs, hj, he2, hf, herr] at he
                rcases he with he | he | he
                · exact Or.inl he
                · exact Or.inr he
                · exact ih (attempt + 1) e he
      · simp [hp, hs] at he
        rcases he with he | he | he
        · exact Or.inl he
        · exact Or.inr he
        · exact ih (attempt + 1) e he

/-- The `k`-th poll response, as Video_bot's loop reads it, reports
`FINISHED`: HTTP 200, parseable body, no `error` payload, and
`status_code = "FINISHED"`. -/
def VideoBot.pollFinished (env : VideoBot.PublishEnv) (k : Nat) : Bool :=
  match env.poll k with
  | .error _ => false
  | .ok resp =>
    if resp.status_code = 200 then
      match resp.json with
      | .error _ => false
      | .ok sd => sd.error.isNone && (sd.status_code = some "FINISHED")
    else false

/-- The `k`-th poll response, as bot.py's loop reads it, reports
`FINISHED` (bot.py reads only the parsed `status_code` field). -/
def Bot.pollSeesFinished (env : Bot.PublishEnv) (k : Nat) : Bool :=
  match env.poll k with
  | .error _ => false
  | .ok resp =>
    match resp.json with
    | .error _ => false
    | .ok sd => sd.status_code = some "FINISHED"

/-- The `k`-th poll response parses and reports neither `FINISHED` nor
`ERROR` (so bot.py's loop just continues). -/
def Bot.pollPassive (env : Bot.PublishEnv) (k : Nat) : Bool :=
  match env.poll k with
  | .error _ => false
  | .ok resp =>
    match resp.json with
    | .error _ => false
    | .ok sd =>
      !(sd.status_code = some "FINISHED") && !(sd.status_code = some "ERROR")

theorem VideoBot.statusLoop_finished_requires (env : VideoBot.PublishEnv) :
    ∀ (fuel attempt : Nat),
      (∀ k, attempt ≤ k → k < attempt + fuel → VideoBot.pollFinished env k = false) →
      ¬ (VideoBot.statusLoop env attempt fuel).1 = PollOutcome.finished := by
  intro fuel
  induction fuel with
  | zero => intro attempt h; simp [VideoBot.statusLoop]
  | succ n ih =>
    intro attempt h
    have hk := h attempt (Nat.le_refl _) (by omega)
    have hrec := ih (attempt + 1) (fun k h1 h2 => h k (by omega) (by omega))
    unfold VideoBot.statusLoop
    cases hp : env.poll attempt with
    | error u => simp
    | ok resp =>
      by_cases hs : resp.status_code = 200
      · cases hj : resp.json with
        | error u => simp [hs, hj]
        | ok sd =>
          by_cases he2 : sd.error.isSome
          · simp [hs, hj, he2]
          · by_cases hf : sd.status_code = some "FINISHED"
            · exfalso
              cases hsd : sd.error with
              | some v => exact he2 (by simp [hsd])
              | none =>
                simp only [VideoBot.pollFinished, hp, hj, hsd] at hk
                rw [if_pos hs] at hk
                simp [hf] at hk
            · by_cases herr : sd.status_code = some "ERROR"
              · simp [hs, hj, he2, hf, herr]
              · simpa [hs, hj, he2, hf, herr] using hrec
      · simpa [hs] using hrec

theorem Bot.statusLoop_exhausts (env : Bot.PublishEnv) :
    ∀ (fuel attempt : Nat),
      (∀ k, attempt ≤ k → k < attempt + fuel → Bot.pollPassive env k = true) →
      (Bot.statusLoop env attempt fuel).1 = PollOutcome.exhausted := by
  intro fuel
  induction fuel with
  | zero => intro attempt h; simp [Bot.statusLoop]
  | succ n ih =>
    intro attempt h
    have hk := h attempt (Nat.le_refl _) (by omega)
    have hrec := ih (attempt + 1) (fun k h1 h2 => h k (by omega) (by omega))
    unfold Bot.statusLoop
    cases hp : env.poll attempt with
    | error u =>
      simp only [Bot.pollPassive, hp] at hk
      cases hk
    | ok resp =>
      cases hj : resp.json with
      | error u =>
        simp only [Bot.pollPassive, hp, hj] at hk
        cases hk
      | ok sd =>
        simp only [Bot.pollPassive, hp, hj, Bool.and_eq_true] at hk
        have hf : ¬ sd.status_code = some "FINISHED" := by simpa using hk.1
        have herr : ¬ sd.status_code = some "ERROR" := by simpa using hk.2
        simpa [hj, hf, herr] using hrec

/-! ## Claim C9 -/

/-- C9: for every input string, `parse_srt_content` returns either `None`
or a non-empty string, never the empty string: blocks with fewer than three
lines or whose text lines are all whitespace contribute nothing, and when
no block yields text the joined text is empty and the result is `None`. -/
theorem C9_parse_srt_none_or_nonempty (s : String) :
    VideoBot.parse_srt_content s = none ∨
    ∃ t, VideoBot.parse_srt_content s = some t ∧ ¬ t = "" := by
  unfold VideoBot.parse_srt_content
  by_cases h0 : s = ""
  · left; simp [h0]
  · simp only [h0, if_false]
    set blocks := srtSplitAux (pyStripList (s.data.dropWhile (fun c => c = '\uFEFF'))).length
      (pyStripList (s.data.dropWhile (fun c => c = '\uFEFF'))) [] with hb
    by_cases hft : joinSpace (blocks.filterMap srtBlockText) = []
    · left; simp [hft]
    · right
      refine ⟨String.mk (joinSpace (blocks.filterMap srtBlockText)), by simp [hft], ?_⟩
      intro hcontr
      exact hft (congrArg String.data hcontr)

/-! ## Claim C10 -/

/-- C10: in the Video_bot driver loop, the fixed inter-job pacing delay is
executed only after a job that returned failure; after a successful job no
sleep occurs before the next row is examined. -/
theorem C10_sleep_only_after_failure (row : List String) (result : Bool)
    (interval : Nat) (h : VideoBot.rowRuns row = true) :
    (result = true →
      ¬ DriverEvent.sleepSecs (interval * 60) ∈ VideoBot.handleRow row result interval) ∧
    (result = false →
      DriverEvent.sleepSecs (interval * 60) ∈ VideoBot.handleRow row result interval) := by
  constructor
  · intro hr; subst hr
    simp [VideoBot.handleRow, h]
  · intro hr; subst hr
    simp [VideoBot.handleRow, h]

/-- C10 witness: a concrete due row. -/
theorem C10_witness :
    DriverEvent.sleepSecs (1 * 60) ∈ VideoBot.handleRow ["http://v", "http://s"] false 1 ∧
    ¬ DriverEvent.sleepSecs (1 * 60) ∈ VideoBot.handleRow ["http://v", "http://s"] true 1 := by
  constructor
  · exact (C10_sleep_only_after_failure ["http://v", "http://s"] false 1 (by decide)).2 rfl
  · exact (C10_sleep_only_after_failure ["http://v", "http://s"] true 1 (by decide)).1 rfl

/-! ## Claim C8 -/

/-- C8: when the external encoding tool is missing or exits non-zero, the
transcoder returns exactly the original input path with the filesystem (and
so the input file) untouched, and the pipeline continues with that file:
under such a tool the Video_bot job outcome is exactly the publish outcome
for the uploaded URL, not a forced failure. -/
theorem C8_reencode_soft_failure
    (tool : ToolOutcome) (input_path : String) (fs : FS)
    (hf : tool.failed = true)
    (env : VideoBot.RowEnv) (video_link : String) (fs0 : FS)
    (sc st p u : String)
    (henv : env.tool.failed = true)
    (hsrt : env.srt = some sc) (hsc : ¬ sc = "")
    (hparse : VideoBot.parse_srt_content sc = some st) (hst : ¬ st = "")
    (hcap : optTruthy env.caption = true)
    (hurl : env.url_ok = false)
    (hvid : env.video = some p)
    (hup : (VideoBot.upload_to_tmpfiles env.up p).1 = some u)
    (hhttp : "http".data.isPrefixOf u.data = true) :
    reencode_video tool input_path fs = (input_path, fs) ∧
    (VideoBot.process_single_row env video_link fs0).1 =
      (VideoBot.publish_to_instagram env.pub u "").1 := by
  constructor
  · cases tool with
    | missing => rfl
    | ran rc out =>
      have hrc : ¬ rc = 0 := by simpa [ToolOutcome.failed] using hf
      simp [reencode_video, hrc]
  · simp only [VideoBot.process_single_row, hsrt, hparse, hsc, hst, hcap, hurl, hvid,
      reencode_video_fst, hup, hhttp, if_false, if_true]
    simp

/-- Concrete Video_bot environment with a missing encoding tool. -/
def c8Env : VideoBot.RowEnv :=
  { srt := some "1\n00:00:00 --> 00:00:01\nhello"
    caption := some "cap"
    url_ok := false
    video := some "v.mp4"
    tool := ToolOutcome.missing
    up := { post := .ok { status_code := 200
                          json := .ok { status := some "success"
                                        data_url := some "https://tmpfiles.org/9/v.mp4" } }
            head := .ok 200
            get := .ok 200 }
    pub := { head_check := .ok 200
             get_check := .ok 200
             create := .ok { status_code := 200
                             json := .ok { id := some "5", error := none } }
             poll := fun _ => .ok { status_code := 200
                                    json := .ok { status_code := some "FINISHED"
                                                  error := none } }
             commitResp := .ok { status_code := 200
                                 json := .ok { id := some "77", error := none } } } }

/-- C8 witness: the soft-failure theorem applied at a concrete run. -/
theorem C8_witness :
    reencode_video ToolOutcome.missing "a.mp4" [] = ("a.mp4", []) ∧
    (VideoBot.process_single_row c8Env "L" []).1 =
      (VideoBot.publish_to_instagram c8Env.pub "https://tmpfiles.org/dl/9/v.mp4" "").1 :=
  C8_reencode_soft_failure ToolOutcome.missing "a.mp4" [] (by decide) c8Env "L" []
    "1\n00:00:00 --> 00:00:01\nhello" "hello" "v.mp4" "https://tmpfiles.org/dl/9/v.mp4"
    (by decide) rfl (by decide) (by decide) (by decide) rfl rfl rfl (by decide) (by decide)

/-! ## Claim C4 -/

/-- C4 counterexample: the Video_bot driver runs the pipeline on a row
whose status column holds the non-empty value "No", although the claim says
any non-empty status makes the driver treat the row as already handled. -/
theorem C4_cex :
    pyTruthyStr (["http://v", "http://s", "", "", "", "No"].getD 5 "") = true ∧
    VideoBot.rowRuns ["http://v", "http://s", "", "", "", "No"] = true := by
  constructor <;> decide

/-- C4 amended: in bot.py any non-empty `runever` value (column 5) makes
the driver skip the row, as claimed; in Video_bot only a status cell whose
stripped, lower-cased value is exactly "yes" is treated as already handled,
and a row with any other non-empty status (such as "No") is processed again
whenever its links are present. -/
theorem C4_amended :
    (∀ row : List String, pyTruthyStr (row.getD 4 "") = true →
      Bot.rowRuns row = false) ∧
    (∀ row : List String,
      String.mk ((VideoBot.rowStatus row).data.map Char.toLower) = "yes" →
      VideoBot.rowRuns row = false) ∧
    (∀ v srt status : String,
      ¬ pyStrip v = "" → ¬ pyStrip srt = "" →
      ¬ String.mk ((pyStrip status).data.map Char.toLower) = "yes" →
      VideoBot.rowRuns [v, srt, "", "", "", status] = true) := by
  refine ⟨?_, ?_, ?_⟩
  · intro row h
    simp only [Bot.rowRuns]
    by_cases hl : row.length < 5
    · rw [if_pos hl]
    · rw [if_neg hl, h]
      simp
  · intro row h
    have hne : ¬ VideoBot.rowStatus row = "" := by
      intro hx
      rw [hx] at h
      exact absurd h (by decide)
    simp only [VideoBot.rowRuns]
    by_cases hl : row.length < 2
    · rw [if_pos hl]
    · rw [if_neg hl, if_pos]
      simp [pyTruthyStr, hne, h]
  · intro v srt status hv hs hy
    have h1 : VideoBot.rowStatus [v, srt, "", "", "", status] = pyStrip status := rfl
    have h2 : VideoBot.rowVideoLink [v, srt, "", "", "", status] = pyStrip v := rfl
    have h3 : VideoBot.rowSrtLink [v, srt, "", "", "", status] = pyStrip srt := rfl
    simp only [VideoBot.rowRuns, h1, h2, h3]
    rw [if_neg (by simp), if_neg (by simp [hy]), if_neg hv, if_neg hs]

/-- C4 witness: a "yes" row is skipped by Video_bot, a marked row is
skipped by bot.py, and a "No" row with links is run again by Video_bot. -/
theorem C4_witness :
    Bot.rowRuns ["http://u", "", "", "", "No"] = false ∧
    VideoBot.rowRuns ["http://v", "http://s", "", "", "", " Yes "] = false ∧
    VideoBot.rowRuns ["http://v", "http://s", "", "", "", "failed"] = true := by
  refine ⟨C4_amended.1 ["http://u", "", "", "", "No"] (by decide),
    C4_amended.2.1 ["http://v", "http://s", "", "", "", " Yes "] (by decide),
    C4_amended.2.2 "http://v" "http://s" "failed" (by decide) (by decide) (by decide)⟩

/-! ## Claim C7 -/

/-- Upload response oracle for the C7 counterexample: the upload succeeds,
and both probe requests would report non-success — but bot.py never sends
them. -/
def c7Env : UploadEnv :=
  { post := .ok { status_code := 200
                  json := .ok { status := some "success"
                                data_url := some "https://tmpfiles.org/1/f.mp4" } }
    head := .ok 500
    get := .ok 500 }

/-- C7 counterexample: bot.py's uploader performs no reachability probe at
all: after a successful upload it returns the rewritten direct-download URL
without issuing a HEAD or GET (here both would have reported 500). -/
theorem C7_cex :
    (Bot.upload_to_tmpfiles c7Env "f.mp4").2 = [UpEvent.uploadPost] ∧
    (Bot.upload_to_tmpfiles c7Env "f.mp4").1 =
      some "https://tmpfiles.org/dl/1/f.mp4" := by
  constructor <;> decide

/-- C7 amended: Video_bot's uploader behaves exactly as the claim states —
after a successful upload it probes the rewritten URL (HEAD, then a
streamed GET when HEAD is not 200); a probe that raises still returns the
URL as success; a GET fallback that completes with a non-success status
returns failure.  bot.py's uploader performs no post-upload probe and
returns the rewritten URL immediately. -/
theorem C7_amended :
    (∀ (env : UploadEnv) (p : String) (r : Resp UploadBody) (body : UploadBody)
       (url : String),
      env.post = .ok r → r.status_code = 200 → r.json = .ok body →
      body.status = some "success" → body.data_url = some url →
      (UpEvent.headProbe ∈ (VideoBot.upload_to_tmpfiles env p).2 ∧
       (env.head = .error () →
         (VideoBot.upload_to_tmpfiles env p).1 =
           some (pyReplace url "tmpfiles.org/" "tmpfiles.org/dl/")) ∧
       (∀ hs, env.head = .ok hs → ¬ hs = 200 → env.get = .error () →
         (VideoBot.upload_to_tmpfiles env p).1 =
           some (pyReplace url "tmpfiles.org/" "tmpfiles.org/dl/")) ∧
       (∀ hs gs, env.head = .ok hs → ¬ hs = 200 → env.get = .ok gs →
          ¬ gs = 200 →
         (VideoBot.upload_to_tmpfiles env p).1 = none))) ∧
    (∀ (env : UploadEnv) (p : String),
      ¬ UpEvent.headProbe ∈ (Bot.upload_to_tmpfiles env p).2 ∧
      ¬ UpEvent.getProbe ∈ (Bot.upload_to_tmpfiles env p).2) := by
  constructor
  · intro env p r body url hpost hstatus hjson hok hurl
    refine ⟨?_, ?_, ?_, ?_⟩
    · simp only [VideoBot.upload_to_tmpfiles, hpost, hstatus, hjson, hok, hurl]
      cases hh : env.head with
      | error u => simp
      | ok hs =>
        by_cases h200 : hs = 200
        · simp [h200]
        · cases hg : env.get with
          | error u => simp [h200]
          | ok gs => by_cases g200 : gs = 200 <;> simp [h200, g200]
    · intro hh
      simp [VideoBot.upload_to_tmpfiles, hpost, hstatus, hjson, hok, hurl, hh]
    · intro hs hh h200 hg
      simp [VideoBot.upload_to_tmpfiles, hpost, hstatus, hjson, hok, hurl, hh, h200, hg]
    · intro hs gs hh h200 hg g200
      simp [VideoBot.upload_to_tmpfiles, hpost, hstatus, hjson, hok, hurl, hh, h200, hg, g200]
  · intro env p
    constructor
    · intro hmem
      unfold Bot.upload_to_tmpfiles at hmem
      cases hpost : env.post with
      | error u => simp [hpost] at hmem
      | ok resp =>
        cases hj : resp.json with
        | error u => simp [hpost, hj] at hmem
        | ok result =>
          by_cases hok : result.status = some "success"
          · cases hu : result.data_url with
            | none => simp [hpost, hj, hok, hu] at hmem
            | some url => simp [hpost, hj, hok, hu] at hmem
          · simp [hpost, hj, hok] at hmem
    · intro hmem
      unfold Bot.upload_to_tmpfiles at hmem
      cases hpost : env.post with
      | error u => simp [hpost] at hmem
      | ok resp =>
        cases hj : resp.json with
        | error u => simp [hpost, hj] at hmem
        | ok result =>
          by_cases hok : result.status = some "success"
          · cases hu : result.data_url with
            | none => simp [hpost, hj, hok, hu] at hmem
            | some url => simp [hpost, hj, hok, hu] at hmem
          · simp [hpost, hj, hok] at hmem

/-- Upload response oracle for the C7 witness: HEAD non-200, GET completes
with 404. -/
def c7wEnv : UploadEnv :=
  { post := .ok { status_code := 200
                  json := .ok { status := some "success"
                                data_url := some "https://tmpfiles.org/2/g.mp4" } }
    head := .ok 403
    get := .ok 404 }

/-- C7 witness: the amended theorem applied at concrete environments. -/
theorem C7_witness :
    UpEvent.headProbe ∈ (VideoBot.upload_to_tmpfiles c7wEnv "g.mp4").2 ∧
    (VideoBot.upload_to_tmpfiles c7wEnv "g.mp4").1 = none ∧
    ¬ UpEvent.headProbe ∈ (Bot.upload_to_tmpfiles c7wEnv "g.mp4").2 := by
  refine ⟨(C7_amended.1 c7wEnv "g.mp4" _ _ "https://tmpfiles.org/2/g.mp4" rfl rfl rfl rfl rfl).1,
    (C7_amended.1 c7wEnv "g.mp4" _ _ "https://tmpfiles.org/2/g.mp4" rfl rfl rfl rfl rfl).2.2.2
      403 404 rfl (by decide) rfl (by decide),
    (C7_amended.2 c7wEnv "g.mp4").1⟩

/-! ## Claim C5 -/

/-- The pre-creation URL verification lets the attempt proceed. -/
def VideoBot.urlCheckPasses (env : VideoBot.PublishEnv) : Bool :=
  (VideoBot.urlCheck env).1

/-- The container-creation response is one the claim's abort condition
describes, as Video_bot reads it: an exception, a non-success HTTP status,
an `error` payload, or a missing container id. -/
def VideoBot.createAborts (env : VideoBot.PublishEnv) : Bool :=
  match env.create with
  | .error _ => true
  | .ok r =>
    if r.status_code = 200 then
      match r.json with
      | .error _ => true
      | .ok b => b.error.isSome || b.id.isNone
    else true

/-- The container-creation response carries no `id` in its parsed body (or
raises), which is the only abort condition bot.py checks. -/
def Bot.createNoId (env : Bot.PublishEnv) : Bool :=
  match env.create with
  | .error _ => true
  | .ok r =>
    match r.json with
    | .error _ => true
    | .ok b => b.id.isNone

theorem VideoBot.urlCheck_trace (env : VideoBot.PublishEnv) :
    (VideoBot.urlCheck env).2 = [Event.verifyHead] ∨
    (VideoBot.urlCheck env).2 = [Event.verifyHead, Event.verifyGet] := by
  unfold VideoBot.urlCheck
  cases env.head_check with
  | error u => exact Or.inl rfl
  | ok s =>
    by_cases h : (s = 200 || s = 206 : Bool)
    · simp only [h]
      exact Or.inl (by simp)
    · simp only [Bool.not_eq_true] at h
      simp only [h]
      cases env.get_check with
      | error u => exact Or.inr (by simp)
      | ok s2 =>
        by_cases h2 : (s2 = 200 || s2 = 206 : Bool)
        · simp only [h2]
          exact Or.inr (by simp)
        · simp only [Bool.not_eq_true] at h2
          simp only [h2]
          exact Or.inr (by simp)

theorem Bot.commitStep_trace (env : Bot.PublishEnv) (tr : List Event) :
    (Bot.commitStep env tr).2 = tr ++ [Event.commit] := by
  cases hc : env.commitResp with
  | error u => simp [Bot.commitStep, hc]
  | ok resp =>
    cases hj : resp.json with
    | error u => simp [Bot.commitStep, hc, hj]
    | ok pub => simp [Bot.commitStep, hc, hj]

theorem Bot.statusLoop_filter_main (env : Bot.PublishEnv)
    (fuel attempt : Nat) :
    (Bot.statusLoop env attempt fuel).2.filter Event.isMainCreate = [] := by
  rw [List.filter_eq_nil_iff]
  intro e he
  rcases Bot.statusLoop_trace env fuel attempt e he with h | h <;> rw [h] <;> decide

theorem Bot.createItems_filter_main (env : Bot.PublishEnv)
    (l : List (String × String)) (idx : Nat) :
    (Bot.createItems env l idx).2.filter Event.isMainCreate = [] := by
  rw [List.filter_eq_nil_iff]
  intro e he
  rw [Bot.createItems_trace env l idx e he]
  decide

theorem Bot.publishMain_main_create_once (env : Bot.PublishEnv)
    (out : ItemsOut) (itr : List Event) (mt : MediaKind)
    (hitr : itr.filter Event.isMainCreate = []) :
    ((Bot.publishMain env (out, itr) mt).2.filter Event.isMainCreate).length ≤ 1 := by
  cases out with
  | exn => simp [Bot.publishMain, hitr]
  | missingId => simp [Bot.publishMain, hitr]
  | ok item_ids =>
    cases hc : env.create with
    | error u =>
      cases mt <;>
        simp [Bot.publishMain, hc, hitr, List.filter_append, Event.isMainCreate]
    | ok resp =>
      cases hj : resp.json with
      | error u =>
        cases mt <;>
          simp [Bot.publishMain, hc, hj, hitr, List.filter_append,
            Event.isMainCreate]
      | ok result =>
        cases hid : result.id with
        | none =>
          cases mt <;>
            simp [Bot.publishMain, hc, hj, hid, hitr, List.filter_append,
              Event.isMainCreate]
        | some i =>
          cases mt with
          | IMAGE =>
            simp [Bot.publishMain, hc, hj, hid, hitr, Bot.commitStep_trace,
              List.filter_append, Event.isMainCreate]
          | VIDEO =>
            simp only [Bot.publishMain, hc, hj, hid]
            cases hpl : (Bot.statusLoop env 0 30).1 <;>
              simp [hpl, hitr, Bot.commitStep_trace,
                Bot.statusLoop_filter_main, List.filter_append,
                Event.isMainCreate]
          | ALBUM =>
            simp only [Bot.publishMain, hc, hj, hid]
            cases hpl : (Bot.statusLoop env 0 30).1 <;>
              simp [hpl, hitr, Bot.commitStep_trace,
                Bot.statusLoop_filter_main, List.filter_append,
                Event.isMainCreate]

/-- bot.py issues the main container-creation request at most once per
publish attempt: no creation retry at this layer. -/
theorem Bot.publish_main_create_once (env : Bot.PublishEnv)
    (media : PubMedia) (c : String) (mt : MediaKind) :
    (((Bot.publish_to_instagram env media c mt).2.filter
        Event.isMainCreate).length) ≤ 1 := by
  unfold Bot.publish_to_instagram
  cases mt with
  | ALBUM =>
    cases media with
    | single u => exact Bot.publishMain_main_create_once env _ _ _ rfl
    | items l =>
      rcases hci : Bot.createItems env l 0 with ⟨out, itr⟩
      have := Bot.createItems_filter_main env l 0
      rw [hci] at this
      simpa [hci] using Bot.publishMain_main_create_once env out itr _ this
  | IMAGE => exact Bot.publishMain_main_create_once env _ _ _ rfl
  | VIDEO => exact Bot.publishMain_main_create_once env _ _ _ rfl

theorem VideoBot.statusLoop_no_main_create (env : VideoBot.PublishEnv)
    (fuel attempt : Nat) :
    (VideoBot.statusLoop env attempt fuel).2.filter Event.isMainCreate = [] := by
  rw [List.filter_eq_nil_iff]
  intro e he
  rcases VideoBot.statusLoop_events env fuel attempt e he with h | h <;>
    rw [h] <;> decide

theorem VideoBot.urlCheck_filter_main (env : VideoBot.PublishEnv) :
    (VideoBot.urlCheck env).2.filter Event.isMainCreate = [] := by
  rcases VideoBot.urlCheck_trace env with h | h <;> rw [h] <;> decide

/-- Video_bot issues the container-creation request at most once per
publish attempt: no creation retry at this layer. -/
theorem VideoBot.publish_single_create (env : VideoBot.PublishEnv)
    (u c : String) :
    (((VideoBot.publish_to_instagram env u c).2.filter
        Event.isMainCreate).length) ≤ 1 := by
  unfold VideoBot.publish_to_instagram
  by_cases hv : (VideoBot.urlCheck env).1 = false
  · simp [hv, VideoBot.urlCheck_filter_main]
  · simp only [hv, if_false]
    cases hc : env.create with
    | error u2 =>
      simp [List.filter_append, VideoBot.urlCheck_filter_main,
        Event.isMainCreate]
    | ok resp =>
      by_cases hs : resp.status_code = 200
      · simp only [hs, if_true]
        cases hj : resp.json with
        | error u2 =>
          simp [List.filter_append, VideoBot.urlCheck_filter_main,
            Event.isMainCreate]
        | ok result =>
          by_cases he : result.error.isSome
          · simp [he, List.filter_append, VideoBot.urlCheck_filter_main,
              Event.isMainCreate]
          · simp only [he, Bool.false_eq_true, if_false]
            cases hid : result.id with
            | none =>
              simp [List.filter_append, VideoBot.urlCheck_filter_main,
                Event.isMainCreate]
            | some i =>
              cases hpl : (VideoBot.statusLoop env 0 30).1 with
              | finished =>
                cases hcr : env.commitResp with
                | error u2 =>
                  simp [hpl, List.filter_append,
                    VideoBot.urlCheck_filter_main,
                    VideoBot.statusLoop_no_main_create, Event.isMainCreate]
                | ok pr =>
                  by_cases hps : pr.status_code = 200
                  · cases hpj : pr.json with
                    | error u2 =>
                      simp [hpl, hps, hpj, List.filter_append,
                        VideoBot.urlCheck_filter_main,
                        VideoBot.statusLoop_no_main_create, Event.isMainCreate]
                    | ok pub =>
                      by_cases hpe : pub.error.isSome <;>
                        simp [hpl, hps, hpj, hpe, List.filter_append,
                          VideoBot.urlCheck_filter_main,
                          VideoBot.statusLoop_no_main_create, Event.isMainCreate]
                  · simp [hpl, hps, List.filter_append,
                      VideoBot.urlCheck_filter_main,
                      VideoBot.statusLoop_no_main_create, Event.isMainCreate]
              | procError =>
                simp [hpl, List.filter_append, VideoBot.urlCheck_filter_main,
                  VideoBot.statusLoop_no_main_create, Event.isMainCreate]
              | apiError =>
                simp [hpl, List.filter_append, VideoBot.urlCheck_filter_main,
                  VideoBot.statusLoop_no_main_create, Event.isMainCreate]
              | httpExn =>
                simp [hpl, List.filter_append, VideoBot.urlCheck_filter_main,
                  VideoBot.statusLoop_no_main_create, Event.isMainCreate]
              | exhausted =>
                simp [hpl, List.filter_append, VideoBot.urlCheck_filter_main,
                  VideoBot.statusLoop_no_main_create, Event.isMainCreate]
      · simp only [hs, if_false]
        simp [List.filter_append, VideoBot.urlCheck_filter_main,
          Event.isMainCreate]

theorem VideoBot.publish_abort_on_create (env : VideoBot.PublishEnv)
    (u c : String)
    (hv : VideoBot.urlCheckPasses env = true)
    (ha : VideoBot.createAborts env = true) :
    (VideoBot.publish_to_instagram env u c).1 = false ∧
    ¬ Event.pollStatus ∈ (VideoBot.publish_to_instagram env u c).2 ∧
    ¬ Event.commit ∈ (VideoBot.publish_to_instagram env u c).2 := by
  have hvt : (VideoBot.urlCheck env).1 = true := hv
  unfold VideoBot.publish_to_instagram
  rcases VideoBot.urlCheck_trace env with htr | htr <;>
    (cases hc : env.create with
     | error u2 => simp [hvt, htr]
     | ok resp =>
       by_cases hs : resp.status_code = 200
       · cases hj : resp.json with
         | error u2 => simp [hvt, hs, hj, htr]
         | ok result =>
           by_cases he : result.error.isSome
           · simp [hvt, hs, hj, he, htr]
           · cases hid : result.id with
             | none => simp [hvt, hs, hj, he, hid, htr]
             | some i =>
               exfalso
               simp only [VideoBot.createAborts, hc] at ha
               rw [if_pos hs] at ha
               simp only [hj, hid] at ha
               simp [he] at ha
       · simp [hvt, hs, htr])

theorem Bot.publishMain_abort_on_noid (env : Bot.PublishEnv)
    (out : ItemsOut) (itr : List Event) (mt : MediaKind)
    (hitr : ∀ e ∈ itr, e = Event.createItemContainer)
    (ha : Bot.createNoId env = true) :
    (Bot.publishMain env (out, itr) mt).1 = false ∧
    ¬ Event.pollStatus ∈ (Bot.publishMain env (out, itr) mt).2 ∧
    ¬ Event.commit ∈ (Bot.publishMain env (out, itr) mt).2 := by
  have hpoll_itr : ¬ Event.pollStatus ∈ itr :=
    fun hmem => absurd (hitr _ hmem) (by decide)
  have hcommit_itr : ¬ Event.commit ∈ itr :=
    fun hmem => absurd (hitr _ hmem) (by decide)
  cases out with
  | exn => exact ⟨rfl, hpoll_itr, hcommit_itr⟩
  | missingId => exact ⟨rfl, hpoll_itr, hcommit_itr⟩
  | ok item_ids =>
    cases hc : env.create with
    | error u2 =>
      cases mt <;>
        simp [Bot.publishMain, hc, List.mem_append, hpoll_itr, hcommit_itr]
    | ok resp =>
      cases hj : resp.json with
      | error u2 =>
        cases mt <;>
          simp [Bot.publishMain, hc, hj, List.mem_append, hpoll_itr,
            hcommit_itr]
      | ok result =>
        cases hid : result.id with
        | none =>
          cases mt <;>
            simp [Bot.publishMain, hc, hj, hid, List.mem_append, hpoll_itr,
              hcommit_itr]
        | some i =>
          exfalso
          simp only [Bot.createNoId, hc, hj, hid] at ha
          simp at ha

theorem Bot.publish_abort_on_noid (env : Bot.PublishEnv) (media : PubMedia)
    (c : String) (mt : MediaKind)
    (ha : Bot.createNoId env = true) :
    (Bot.publish_to_instagram env media c mt).1 = false ∧
    ¬ Event.pollStatus ∈ (Bot.publish_to_instagram env media c mt).2 ∧
    ¬ Event.commit ∈ (Bot.publish_to_instagram env media c mt).2 := by
  unfold Bot.publish_to_instagram
  cases mt with
  | ALBUM =>
    cases media with
    | single u =>
      exact Bot.publishMain_abort_on_noid env _ _ _ (by intro e he; cases he) ha
    | items l =>
      rcases hci : Bot.createItems env l 0 with ⟨out, itr⟩
      have htr := Bot.createItems_trace env l 0
      rw [hci] at htr
      simpa [hci] using Bot.publishMain_abort_on_noid env out itr _ htr ha
  | IMAGE => exact Bot.publishMain_abort_on_noid env _ _ _ (by intro e he; cases he) ha
  | VIDEO => exact Bot.publishMain_abort_on_noid env _ _ _ (by intro e he; cases he) ha

/-- C5 counterexample environment: the container-creation response has HTTP
status 500 and a structured error payload, but also an `id` field. -/
def c5Env : Bot.PublishEnv :=
  { child := fun _ => .error ()
    create := .ok { status_code := 500
                    json := .ok { id := some "17890", error := some "server error" } }
    poll := fun _ => .ok { status_code := 200
                           json := .ok { status_code := some "FINISHED"
                                         error := none } }
    commitResp := .ok { status_code := 200
                        json := .ok { id := some "99", error := none } } }

/-- C5 counterexample: bot.py never examines the HTTP status (or the
`error` payload) of the container-creation response; with a non-success
status whose body still carries an `id`, publishing proceeds to the status
poll and to the commit instead of returning false immediately. -/
theorem C5_cex :
    Event.pollStatus ∈
      (Bot.publish_to_instagram c5Env (PubMedia.single "u") "c" MediaKind.VIDEO).2 ∧
    Event.commit ∈
      (Bot.publish_to_instagram c5Env (PubMedia.single "u") "c" MediaKind.VIDEO).2 ∧
    (Bot.publish_to_instagram c5Env (PubMedia.single "u") "c" MediaKind.VIDEO).1 = true := by
  refine ⟨?_, ?_, ?_⟩ <;> decide

/-- C5 amended: in Video_bot the claim holds as stated — when the attempt
reaches container creation, a non-success HTTP status, an error payload, a
missing id or an exception aborts with `false`, with no status poll and no
commit.  In bot.py the abort is decided solely by the parsed body: a
missing `id` (which covers every pure error payload and every parse
failure) aborts the same way, but the HTTP status code is never examined.
Neither variant ever retries the creation request within an attempt. -/
theorem C5_amended :
    (∀ (env : VideoBot.PublishEnv) (u c : String),
      VideoBot.urlCheckPasses env = true →
      VideoBot.createAborts env = true →
      (VideoBot.publish_to_instagram env u c).1 = false ∧
      ¬ Event.pollStatus ∈ (VideoBot.publish_to_instagram env u c).2 ∧
      ¬ Event.commit ∈ (VideoBot.publish_to_instagram env u c).2) ∧
    (∀ (env : Bot.PublishEnv) (media : PubMedia) (c : String) (mt : MediaKind),
      Bot.createNoId env = true →
      (Bot.publish_to_instagram env media c mt).1 = false ∧
      ¬ Event.pollStatus ∈ (Bot.publish_to_instagram env media c mt).2 ∧
      ¬ Event.commit ∈ (Bot.publish_to_instagram env media c mt).2) ∧
    (∀ (env : Bot.PublishEnv) (media : PubMedia) (c : String) (mt : MediaKind),
      (((Bot.publish_to_instagram env media c mt).2.filter
          Event.isMainCreate).length) ≤ 1) ∧
    (∀ (env : VideoBot.PublishEnv) (u c : String),
      (((VideoBot.publish_to_instagram env u c).2.filter
          Event.isMainCreate).length) ≤ 1) :=
  ⟨fun env u c hv ha => VideoBot.publish_abort_on_create env u c hv ha,
   fun env media c mt ha => Bot.publish_abort_on_noid env media c mt ha,
   fun env media c mt => Bot.publish_main_create_once env media c mt,
   fun env u c => VideoBot.publish_single_create env u c⟩

/-- C5 witness environment: creation returns a structured error payload
and no id. -/
def c5wEnv : VideoBot.PublishEnv :=
  { head_check := .ok 200
    get_check := .ok 200
    create := .ok { status_code := 200
                    json := .ok { id := none, error := some "bad video url" } }
    poll := fun _ => .ok { status_code := 200
                           json := .ok { status_code := some "FINISHED"
                                         error := none } }
    commitResp := .ok { status_code := 200
                        json := .ok { id := some "1", error := none } } }

/-- C5 witness environment for the bot.py half: creation body without id. -/
def c5wBotEnv : Bot.PublishEnv :=
  { child := fun _ => .error ()
    create := .ok { status_code := 200
                    json := .ok { id := none, error := some "oops" } }
    poll := fun _ => .ok { status_code := 200
                           json := .ok { status_code := some "FINISHED"
                                         error := none } }
    commitResp := .ok { status_code := 200
                        json := .ok { id := some "1", error := none } } }

/-- C5 witness: the amended theorem applied at concrete environments. -/
theorem C5_witness :
    ((VideoBot.publish_to_instagram c5wEnv "http://u" "c").1 = false ∧
     ¬ Event.pollStatus ∈ (VideoBot.publish_to_instagram c5wEnv "http://u" "c").2 ∧
     ¬ Event.commit ∈ (VideoBot.publish_to_instagram c5wEnv "http://u" "c").2) ∧
    ((Bot.publish_to_instagram c5wBotEnv (PubMedia.single "u") "c" MediaKind.VIDEO).1 = false ∧
     ¬ Event.pollStatus ∈
       (Bot.publish_to_instagram c5wBotEnv (PubMedia.single "u") "c" MediaKind.VIDEO).2 ∧
     ¬ Event.commit ∈
       (Bot.publish_to_instagram c5wBotEnv (PubMedia.single "u") "c" MediaKind.VIDEO).2) ∧
    (((Bot.publish_to_instagram c5Env (PubMedia.single "u") "c" MediaKind.VIDEO).2.filter
        Event.isMainCreate).length) ≤ 1 :=
  ⟨C5_amended.1 c5wEnv "http://u" "c" (by decide) (by decide),
   C5_amended.2.1 c5wBotEnv (PubMedia.single "u") "c" MediaKind.VIDEO (by decide),
   C5_amended.2.2.1 c5Env (PubMedia.single "u") "c" MediaKind.VIDEO⟩

/-! ## Claim C1 -/

theorem VideoBot.publish_no_commit_without_finished
    (env : VideoBot.PublishEnv) (u c : String)
    (h : ∀ k, k < 30 → VideoBot.pollFinished env k = false) :
    (VideoBot.publish_to_instagram env u c).1 = false ∧
    ¬ Event.commit ∈ (VideoBot.publish_to_instagram env u c).2 := by
  have hnf : ¬ (VideoBot.statusLoop env 0 30).1 = PollOutcome.finished :=
    VideoBot.statusLoop_finished_requires env 30 0
      (fun k h1 h2 => h k (by omega))
  have hlooptr : ¬ Event.commit ∈ (VideoBot.statusLoop env 0 30).2 := by
    intro hmem
    rcases VideoBot.statusLoop_events env 30 0 _ hmem with hx | hx <;>
      exact absurd hx (by decide)
  unfold VideoBot.publish_to_instagram
  rcases VideoBot.urlCheck_trace env with htr | htr <;>
    (by_cases hv : (VideoBot.urlCheck env).1 = false
     · simp [hv, htr]
     · cases hc : env.create with
       | error u2 => simp [hv, htr]
       | ok resp =>
         by_cases hs : resp.status_code = 200
         · cases hj : resp.json with
           | error u2 => simp [hv, hs, hj, htr]
           | ok result =>
             by_cases he : result.error.isSome
             · simp [hv, hs, hj, he, htr]
             · cases hid : result.id with
               | none => simp [hv, hs, hj, he, hid, htr]
               | some i =>
                 cases hpl : (VideoBot.statusLoop env 0 30).1 with
                 | finished => exact absurd hpl hnf
                 | procError =>
                   simp [hv, hs, hj, he, hid, hpl, htr, hlooptr]
                 | apiError =>
                   simp [hv, hs, hj, he, hid, hpl, htr, hlooptr]
                 | httpExn =>
                   simp [hv, hs, hj, he, hid, hpl, htr, hlooptr]
                 | exhausted =>
                   simp [hv, hs, hj, he, hid, hpl, htr, hlooptr]
         · simp [hv, hs, htr])

theorem Bot.publish_commits_after_exhaustion (env : Bot.PublishEnv)
    (u c : String) (r : Resp CreateBody) (b : CreateBody) (i : String)
    (hc : env.create = Except.ok r) (hj : r.json = Except.ok b)
    (hid : b.id = some i)
    (hp : ∀ k, k < 30 → Bot.pollPassive env k = true) :
    Event.commit ∈
      (Bot.publish_to_instagram env (PubMedia.single u) c MediaKind.VIDEO).2 := by
  have hex : (Bot.statusLoop env 0 30).1 = PollOutcome.exhausted :=
    Bot.statusLoop_exhausts env 30 0 (fun k h1 h2 => hp k (by omega))
  show Event.commit ∈ (Bot.publishMain env (ItemsOut.ok [], []) MediaKind.VIDEO).2
  simp only [Bot.publishMain, hc, hj, hid, hex]
  simp [Bot.commitStep_trace]

/-- C1 counterexample environment: creation succeeds, every status poll
reports `IN_PROGRESS`, and the commit endpoint answers with a post id. -/
def c1Env : Bot.PublishEnv :=
  { child := fun _ => .error ()
    create := .ok { status_code := 200
                    json := .ok { id := some "111", error := none } }
    poll := fun _ => .ok { status_code := 200
                           json := .ok { status_code := some "IN_PROGRESS"
                                         error := none } }
    commitResp := .ok { status_code := 200
                        json := .ok { id := some "222", error := none } } }

/-- C1 counterexample: in bot.py a video publish whose 30 polls never
report `FINISHED` still calls the commit — and here even returns `true` —
instead of returning false as a timeout with no commit attempted. -/
theorem C1_cex :
    ((List.range 30).all (fun k => !(Bot.pollSeesFinished c1Env k))) = true ∧
    Event.commit ∈
      (Bot.publish_to_instagram c1Env (PubMedia.single "u") "c" MediaKind.VIDEO).2 ∧
    (Bot.publish_to_instagram c1Env (PubMedia.single "u") "c" MediaKind.VIDEO).1 = true := by
  refine ⟨?_, ?_, ?_⟩ <;> decide

/-- C1 amended: Video_bot behaves exactly as the claim states — if no poll
among the 30 reports `FINISHED`, the publish returns false and the commit
request is never sent.  bot.py checks `FINISHED` only to break early: when
the 30-poll budget is exhausted with every poll parsing to a status that is
neither `FINISHED` nor `ERROR`, it falls through and sends the commit
anyway (no timeout abort). -/
theorem C1_amended :
    (∀ (env : VideoBot.PublishEnv) (u c : String),
      (∀ k, k < 30 → VideoBot.pollFinished env k = false) →
      (VideoBot.publish_to_instagram env u c).1 = false ∧
      ¬ Event.commit ∈ (VideoBot.publish_to_instagram env u c).2) ∧
    (∀ (env : Bot.PublishEnv) (u c : String) (r : Resp CreateBody)
       (b : CreateBody) (i : String),
      env.create = Except.ok r → r.json = Except.ok b → b.id = some i →
      (∀ k, k < 30 → Bot.pollPassive env k = true) →
      Event.commit ∈
        (Bot.publish_to_instagram env (PubMedia.single u) c MediaKind.VIDEO).2) :=
  ⟨fun env u c h => VideoBot.publish_no_commit_without_finished env u c h,
   fun env u c r b i hc hj hid hp =>
     Bot.publish_commits_after_exhaustion env u c r b i hc hj hid hp⟩

/-- C1 witness environment: a Video_bot publish whose polls always report
`IN_PROGRESS`. -/
def c1vEnv : VideoBot.PublishEnv :=
  { head_check := .ok 200
    get_check := .ok 200
    create := .ok { status_code := 200
                    json := .ok { id := some "333", error := none } }
    poll := fun _ => .ok { status_code := 200
                           json := .ok { status_code := some "IN_PROGRESS"
                                         error := none } }
    commitResp := .ok { status_code := 200
                        json := .ok { id := some "444", error := none } } }

/-- C1 witness: the amended theorem applied at concrete environments. -/
theorem C1_witness :
    ((VideoBot.publish_to_instagram c1vEnv "http://u" "c").1 = false ∧
     ¬ Event.commit ∈ (VideoBot.publish_to_instagram c1vEnv "http://u" "c").2) ∧
    Event.commit ∈
      (Bot.publish_to_instagram c1Env (PubMedia.single "u") "c" MediaKind.VIDEO).2 :=
  ⟨C1_amended.1 c1vEnv "http://u" "c" (by decide),
   C1_amended.2 c1Env "u" "c" _ _ "111" rfl rfl rfl (by decide)⟩

/-! ## Claim C6 -/

theorem listTruncTake (l : List (String × String)) :
    (if 10 < l.length then l.take 10 else l) = l.take 10 := by
  by_cases h : 10 < l.length
  · simp [h]
  · simp [h, List.take_of_length_le (Nat.le_of_not_lt h)]

theorem Bot.albumLoop_fst_congr (envA envB : Bot.LinkEnv)
    (htool : envA.tool = envB.tool) (hup : envA.up = envB.up) :
    ∀ (l : List (String × String)) (fsA fsB : FS),
      (Bot.albumLoop envA l fsA).1 = (Bot.albumLoop envB l fsB).1 := by
  intro l
  induction l with
  | nil => intro fsA fsB; rfl
  | cons hd rest ih =>
    intro fsA fsB
    obtain ⟨path, m_t⟩ := hd
    unfold Bot.albumLoop
    by_cases hm : m_t = "VIDEO" <;>
      simp only [hm, if_true, if_false, reencode_video_fst, htool, hup] <;>
      cases (Bot.upload_to_tmpfiles (envB.up path) path).1 <;>
        simpa using ih _ _

theorem Bot.albumLoop_length (env : Bot.LinkEnv) :
    ∀ (l : List (String × String)) (fs : FS),
      (Bot.albumLoop env l fs).1.length ≤ l.length := by
  intro l
  induction l with
  | nil => intro fs; exact Nat.le_refl 0
  | cons hd rest ih =>
    intro fs
    obtain ⟨path, m_t⟩ := hd
    unfold Bot.albumLoop
    cases hu : (Bot.upload_to_tmpfiles
        (env.up (if m_t = "VIDEO" then reencode_video env.tool path fs
                 else (path, fs)).1)
        (if m_t = "VIDEO" then reencode_video env.tool path fs
         else (path, fs)).1).1 with
    | none =>
      simp only [hu, List.length_cons]
      have := ih (if m_t = "VIDEO" then reencode_video env.tool path fs
                  else (path, fs)).2
      omega
    | some u =>
      simp only [hu, List.length_cons]
      have := ih (if m_t = "VIDEO" then reencode_video env.tool path fs
                  else (path, fs)).2
      omega

theorem Bot.statusLoop_filter_child (env : Bot.PublishEnv)
    (fuel attempt : Nat) :
    (Bot.statusLoop env attempt fuel).2.filter
      (fun e => e = Event.createItemContainer) = [] := by
  rw [List.filter_eq_nil_iff]
  intro e he
  rcases Bot.statusLoop_trace env fuel attempt e he with h | h <;>
    rw [h] <;> decide

/-- The main flow after the child-container step adds no further child
events: its trace keeps exactly the child events it was given. -/
theorem Bot.publishMain_filter_child (env : Bot.PublishEnv)
    (out : ItemsOut) (itr : List Event) :
    (Bot.publishMain env (out, itr) MediaKind.ALBUM).2.filter
        (fun e => e = Event.createItemContainer)
      = itr.filter (fun e => e = Event.createItemContainer) := by
  cases out with
  | exn => rfl
  | missingId => rfl
  | ok item_ids =>
    cases hc : env.create with
    | error u => simp [Bot.publishMain, hc, List.filter_append]
    | ok resp =>
      cases hj : resp.json with
      | error u => simp [Bot.publishMain, hc, hj, List.filter_append]
      | ok result =>
        cases hid : result.id with
        | none => simp [Bot.publishMain, hc, hj, hid, List.filter_append]
        | some i =>
          simp only [Bot.publishMain, hc, hj, hid]
          cases hpl : (Bot.statusLoop env 0 30).1 <;>
            simp [hpl, Bot.commitStep_trace, Bot.statusLoop_filter_child,
              List.filter_append]

theorem Bot.publish_items_eq (env : Bot.PublishEnv)
    (l : List (String × String)) (c : String) :
    Bot.publish_to_instagram env (PubMedia.items l) c MediaKind.ALBUM
      = Bot.publishMain env (Bot.createItems env l 0) MediaKind.ALBUM := rfl

/-- Per album publish attempt, the number of child-container requests is at
most the number of album items handed to the coordinator. -/
theorem Bot.publish_child_bound (env : Bot.PublishEnv)
    (l : List (String × String)) (c : String) :
    ((Bot.publish_to_instagram env (PubMedia.items l) c MediaKind.ALBUM).2.filter
        (fun e => e = Event.createItemContainer)).length ≤ l.length := by
  rw [Bot.publish_items_eq]
  rcases hci : Bot.createItems env l 0 with ⟨out, itr⟩
  have hlen := Bot.createItems_len env l 0
  rw [hci] at hlen
  calc ((Bot.publishMain env (out, itr) MediaKind.ALBUM).2.filter
          (fun e => e = Event.createItemContainer)).length
      = (itr.filter (fun e => e = Event.createItemContainer)).length := by
        rw [Bot.publishMain_filter_child]
    _ ≤ itr.length := List.length_filter_le _ _
    _ ≤ l.length := hlen

/-- Any parent carousel container created by an album publish references at
most as many children as the coordinator was handed items. -/
theorem Bot.publish_carousel_bound (env : Bot.PublishEnv)
    (l : List (String × String)) (c : String) (n : Nat)
    (hmem : Event.createCarousel n ∈
      (Bot.publish_to_instagram env (PubMedia.items l) c MediaKind.ALBUM).2) :
    n ≤ l.length := by
  rw [Bot.publish_items_eq] at hmem
  rcases hci : Bot.createItems env l 0 with ⟨out, itr⟩
  rw [hci] at hmem
  have hitr := Bot.createItems_trace env l 0
  rw [hci] at hitr
  have hitr_no : ¬ Event.createCarousel n ∈ itr := by
    intro hx
    have := hitr _ hx
    simp at this
  have hloop_no : ¬ Event.createCarousel n ∈ (Bot.statusLoop env 0 30).2 := by
    intro hx
    rcases Bot.statusLoop_trace env 30 0 _ hx with h | h <;> simp at h
  cases out with
  | exn => exact absurd hmem hitr_no
  | missingId => exact absurd hmem hitr_no
  | ok item_ids =>
    have hids := Bot.createItems_ok_length env l 0 item_ids (by rw [hci])
    cases hc : env.create with
    | error u =>
      simp only [Bot.publishMain, hc] at hmem
      simp [List.mem_append, hitr_no] at hmem
      omega
    | ok resp =>
      cases hj : resp.json with
      | error u =>
        simp only [Bot.publishMain, hc, hj] at hmem
        simp [List.mem_append, hitr_no] at hmem
        omega
      | ok result =>
        cases hid : result.id with
        | none =>
          simp only [Bot.publishMain, hc, hj, hid] at hmem
          simp [List.mem_append, hitr_no] at hmem
          omega
        | some i =>
          simp only [Bot.publishMain, hc, hj, hid] at hmem
          cases hpl : (Bot.statusLoop env 0 30).1 <;>
            (rw [hpl] at hmem
             simp [Bot.commitStep_trace, List.mem_append, hitr_no,
               hloop_no] at hmem
             omega)

theorem Bot.albumBranch_child_bound (env : Bot.LinkEnv)
    (items0 : List (String × String)) (fs1 : FS) :
    ((Bot.albumBranch env items0 fs1).2.2.filter
        (fun e => e = Event.createItemContainer)).length ≤ 10 := by
  simp only [Bot.albumBranch, listTruncTake]
  by_cases hana : optTruthy env.analyze = false
  · simp [hana]
  · rw [if_neg hana]
    by_cases hz : (Bot.albumLoop env (items0.take 10) fs1).1.length = 0
    · simp [hz]
    · rw [if_neg hz]
      calc ((Bot.publish_to_instagram env.pub
              (PubMedia.items (Bot.albumLoop env (items0.take 10) fs1).1) ""
              MediaKind.ALBUM).2.filter
                (fun e => e = Event.createItemContainer)).length
          ≤ (Bot.albumLoop env (items0.take 10) fs1).1.length :=
            Bot.publish_child_bound env.pub _ ""
        _ ≤ (items0.take 10).length := Bot.albumLoop_length env _ fs1
        _ ≤ 10 := List.length_take_le _ _

theorem Bot.albumBranch_carousel_bound (env : Bot.LinkEnv)
    (items0 : List (String × String)) (fs1 : FS) (n : Nat)
    (hmem : Event.createCarousel n ∈ (Bot.albumBranch env items0 fs1).2.2) :
    n ≤ 10 := by
  simp only [Bot.albumBranch, listTruncTake] at hmem
  by_cases hana : optTruthy env.analyze = false
  · rw [if_pos hana] at hmem
    cases hmem
  · rw [if_neg hana] at hmem
    by_cases hz : (Bot.albumLoop env (items0.take 10) fs1).1.length = 0
    · rw [if_pos hz] at hmem
      cases hmem
    · rw [if_neg hz] at hmem
      calc n ≤ (Bot.albumLoop env (items0.take 10) fs1).1.length :=
            Bot.publish_carousel_bound env.pub _ "" n hmem
        _ ≤ (items0.take 10).length := Bot.albumLoop_length env _ fs1
        _ ≤ 10 := List.length_take_le _ _

theorem Bot.albumBranch_trunc_congr (env envB : Bot.LinkEnv)
    (items0 : List (String × String)) (fs1 fsB1 : FS)
    (han : env.analyze = envB.analyze) (htool : env.tool = envB.tool)
    (hup : env.up = envB.up) (hpub : env.pub = envB.pub) :
    (Bot.albumBranch env items0 fs1).1
      = (Bot.albumBranch envB (items0.take 10) fsB1).1 ∧
    (Bot.albumBranch env items0 fs1).2.2
      = (Bot.albumBranch envB (items0.take 10) fsB1).2.2 := by
  have htt : (items0.take 10).take 10 = items0.take 10 := by
    simp [List.take_take]
  have hfst := Bot.albumLoop_fst_congr env envB htool hup (items0.take 10) fs1 fsB1
  simp only [Bot.albumBranch, listTruncTake, htt, ite_self]
  rw [← han, ← hpub, ← hfst]
  by_cases hana : optTruthy env.analyze = false
  · rw [if_pos hana, if_pos hana]
    exact ⟨rfl, rfl⟩
  · rw [if_neg hana, if_neg hana]
    exact ⟨rfl, rfl⟩

/-- C6: for an album of any size, the bot pipeline issues at most 10 child
container requests, any parent carousel container references at most 10
children, and the outcome and publish trace coincide with those of the same
run handed only the first 10 items — dropping the items beyond the 10th is
silent and never reported as a failure. -/
theorem C6_album_at_most_ten
    (env envB : Bot.LinkEnv) (fs0 fsB : FS)
    (items0 : List (String × String)) (user : Option String)
    (hd : env.download = DownloadRet.triple (some (BotMedia.album items0)) user)
    (hdB : envB.download =
      DownloadRet.triple (some (BotMedia.album (items0.take 10))) user)
    (han : env.analyze = envB.analyze) (htool : env.tool = envB.tool)
    (hup : env.up = envB.up) (hpub : env.pub = envB.pub) :
    (((Bot.process_single_link env fs0).2.2.filter
        (fun e => e = Event.createItemContainer)).length ≤ 10) ∧
    (∀ n, Event.createCarousel n ∈ (Bot.process_single_link env fs0).2.2 →
      n ≤ 10) ∧
    (Bot.process_single_link env fs0).1 = (Bot.process_single_link envB fsB).1 ∧
    (Bot.process_single_link env fs0).2.2
      = (Bot.process_single_link envB fsB).2.2 := by
  simp only [Bot.process_single_link, hd, hdB]
  cases items0 with
  | nil => simp [BotMedia.pyTruthy]
  | cons x xs =>
    have ht : (BotMedia.album (x :: xs)).pyTruthy = false ↔ False := by
      simp [BotMedia.pyTruthy]
    have htB : (BotMedia.album ((x :: xs).take 10)).pyTruthy = false ↔ False := by
      simp [BotMedia.pyTruthy, List.take_succ_cons]
    simp only [ht, htB, if_false]
    exact ⟨Bot.albumBranch_child_bound env _ _,
      fun n hmem => Bot.albumBranch_carousel_bound env _ _ n hmem,
      (Bot.albumBranch_trunc_congr env envB (x :: xs) _ _ han htool hup hpub).1,
      (Bot.albumBranch_trunc_congr env envB (x :: xs) _ _ han htool hup hpub).2⟩

/-- A 12-item album for the C6 witness. -/
def c6Items : List (String × String) :=
  [("a0.jpg", "IMAGE"), ("a1.jpg", "IMAGE"), ("a2.jpg", "IMAGE"),
   ("a3.jpg", "IMAGE"), ("a4.jpg", "IMAGE"), ("a5.jpg", "IMAGE"),
   ("a6.jpg", "IMAGE"), ("a7.jpg", "IMAGE"), ("a8.jpg", "IMAGE"),
   ("a9.jpg", "IMAGE"), ("a10.jpg", "IMAGE"), ("a11.jpg", "IMAGE")]

/-- Bot pipeline environment holding the 12-item album. -/
def c6Env : Bot.LinkEnv :=
  { download := .triple (some (BotMedia.album c6Items)) (some "bob")
    analyze := some "cap"
    tool := ToolOutcome.missing
    up := fun _ =>
      { post := .ok { status_code := 200
                      json := .ok { status := some "success"
                                    data_url := some "https://tmpfiles.org/3/a.jpg" } }
        head := .ok 200
        get := .ok 200 }
    pub := { child := fun _ => .ok { status_code := 200
                                     json := .ok { id := some "cid", error := none } }
             create := .ok { status_code := 200
                             json := .ok { id := some "parent", error := none } }
             poll := fun _ => .ok { status_code := 200
                                    json := .ok { status_code := some "FINISHED"
                                                  error := none } }
             commitResp := .ok { status_code := 200
                                 json := .ok { id := some "post", error := none } } } }

/-- The same environment handed only the first 10 items. -/
def c6EnvB : Bot.LinkEnv :=
  { c6Env with
    download := .triple (some (BotMedia.album (c6Items.take 10))) (some "bob") }

/-- C6 witness: the cap theorem applied to the concrete 12-item album. -/
theorem C6_witness :
    (((Bot.process_single_link c6Env []).2.2.filter
        (fun e => e = Event.createItemContainer)).length ≤ 10) ∧
    (Bot.process_single_link c6Env []).1 = (Bot.process_single_link c6EnvB []).1 :=
  ⟨(C6_album_at_most_ten c6Env c6EnvB [] [] c6Items (some "bob")
      rfl rfl rfl rfl rfl rfl).1,
   (C6_album_at_most_ten c6Env c6EnvB [] [] c6Items (some "bob")
      rfl rfl rfl rfl rfl rfl).2.2.1⟩

/-! ## Claim C2 -/

/-- C2 counterexample environment: SRT and caption succeed, the original
URL is not usable, the video downloads to `v.mp4`, and the tmpfiles upload
raises. -/
def c2Env : VideoBot.RowEnv :=
  { srt := some "1\n00:00:00 --> 00:00:01\nhello"
    caption := some "cap"
    url_ok := false
    video := some "v.mp4"
    tool := ToolOutcome.missing
    up := { post := .error (), head := .error (), get := .error () }
    pub := { head_check := .error ()
             get_check := .error ()
             create := .error ()
             poll := fun _ => .error ()
             commitResp := .error () } }

/-- C2 counterexample: when the upload fails, `process_single_row` returns
`False` from line 649, before the cleanup block: the downloaded `v.mp4` is
still on disk when the boolean is returned. -/
theorem C2_cex :
    (VideoBot.process_single_row c2Env "L" []).1 = false ∧
    FS.exists (VideoBot.process_single_row c2Env "L" []).2 "v.mp4" = true := by
  constructor <;> decide

theorem VideoBot.row_fs_unchanged_when_url_ok (env : VideoBot.RowEnv)
    (link : String) (fs0 : FS) (hurl : env.url_ok = true) :
    (VideoBot.process_single_row env link fs0).2 = fs0 := by
  unfold VideoBot.process_single_row
  cases hs : env.srt with
  | none => rfl
  | some sc =>
    by_cases hsc : sc = ""
    · simp [hsc]
    · simp only [if_neg hsc]
      cases hp : VideoBot.parse_srt_content sc with
      | none => simp
      | some st =>
        by_cases hst : st = ""
        · simp [hst]
        · simp only [if_neg hst]
          by_cases hcap : optTruthy env.caption = false
          · simp [hcap]
          · simp [hcap, hurl]

theorem VideoBot.row_cleanup_on_publish (env : VideoBot.RowEnv)
    (link : String) (fs0 : FS) (sc st p u : String)
    (hsrt : env.srt = some sc) (hsc : ¬ sc = "")
    (hparse : VideoBot.parse_srt_content sc = some st) (hst : ¬ st = "")
    (hcap : optTruthy env.caption = true)
    (hurl : env.url_ok = false)
    (hvid : env.video = some p)
    (hup : (VideoBot.upload_to_tmpfiles env.up p).1 = some u)
    (hhttp : "http".data.isPrefixOf u.data = true) :
    FS.exists (VideoBot.process_single_row env link fs0).2 p = false ∧
    (FS.exists fs0 (pyReplace p ".mp4" "_reencoded.mp4") = false →
      FS.exists (VideoBot.process_single_row env link fs0).2
        (pyReplace p ".mp4" "_reencoded.mp4") = false) := by
  simp only [VideoBot.process_single_row, hsrt, hparse, hsc, hst, hcap, hurl, hvid,
    reencode_video_fst, hup, hhttp, if_false, if_true]
  simp only [if_neg (by decide : ¬ (true = false)),
    if_neg (by decide : ¬ (false = true)), decide_True, Bool.not_true,
    Bool.and_false]
  set pr2 := (reencode_video env.tool p (FS.write fs0 p 0)).2 with hpr2
  have h1 : FS.exists
      (if FS.exists pr2 p = true then FS.remove pr2 p else pr2) p = false := by
    cases hex : FS.exists pr2 p with
    | true => simp [hex, FS.exists_remove_self]
    | false => simp [hex]
  refine ⟨h1, ?_⟩
  intro habs
  by_cases hpp : pyReplace p ".mp4" "_reencoded.mp4" = p
  · rw [hpp]
    exact h1
  · have habs1 : FS.exists (FS.write fs0 p 0)
        (pyReplace p ".mp4" "_reencoded.mp4") = false := by
      rw [FS.exists_write_ne fs0 p _ 0 hpp]
      exact habs
    have habs2 : FS.exists pr2 (pyReplace p ".mp4" "_reencoded.mp4") = false := by
      rw [hpr2]
      exact reencode_keeps_output_absent env.tool p (FS.write fs0 p 0) hpp
        (FS.exists_write_self fs0 p 0) habs1
    cases hex : FS.exists pr2 p with
    | true =>
      simp only [hex, if_pos]
      rw [FS.exists_remove_ne pr2 p _ hpp]
      exact habs2
    | false => simp [hex, habs2]

theorem Bot.link_cleanup_album (env : Bot.LinkEnv) (fs0 : FS)
    (items0 : List (String × String)) (user : Option String)
    (hd : env.download = DownloadRet.triple (some (BotMedia.album items0)) user) :
    ∀ q ∈ (items0.take 10).map (fun x => x.1),
      FS.exists (Bot.process_single_link env fs0).2.1 q = false := by
  intro q hq
  simp only [Bot.process_single_link, hd]
  cases items0 with
  | nil => simp at hq
  | cons x xs =>
    have ht : (BotMedia.album (x :: xs)).pyTruthy = false ↔ False := by
      simp [BotMedia.pyTruthy]
    simp only [ht, if_false]
    simp only [Bot.albumBranch, listTruncTake]
    by_cases hana : optTruthy env.analyze = false
    · rw [if_pos hana]
      exact cleanupList_mem _ _ _ hq
    · rw [if_neg hana]
      exact cleanupList_mem _ _ _ hq

theorem Bot.link_cleanup_video (env : Bot.LinkEnv) (fs0 : FS)
    (p : String) (user : Option String)
    (hd : env.download = DownloadRet.triple (some (BotMedia.video p)) user)
    (hp : ¬ p = "") :
    FS.exists (Bot.process_single_link env fs0).2.1 p = false ∧
    (FS.exists fs0 (pyReplace p ".mp4" "_reencoded.mp4") = false →
      FS.exists (Bot.process_single_link env fs0).2.1
        (pyReplace p ".mp4" "_reencoded.mp4") = false) := by
  simp only [Bot.process_single_link, hd]
  have ht : (BotMedia.video p).pyTruthy = false ↔ False := by
    simp [BotMedia.pyTruthy, hp]
  simp only [ht, if_false]
  simp only [Bot.videoBranch, reencode_video_fst,
    (show downloadEffect (BotMedia.video p) fs0 = FS.write fs0 p 0 from rfl)]
  by_cases hana : optTruthy env.analyze = false
  · rw [if_pos hana]
    constructor
    · exact cleanupList_mem _ _ _ (by simp)
    · intro habs
      by_cases hpp : pyReplace p ".mp4" "_reencoded.mp4" = p
      · rw [hpp]
        exact cleanupList_mem _ _ _ (by simp)
      · refine cleanupList_absent _ _ _ ?_
        rw [FS.exists_write_ne fs0 p _ 0 hpp]
        exact habs
  · rw [if_neg hana]
    cases hu : (Bot.upload_to_tmpfiles (env.up p) p).1 with
    | none =>
      simp only [hu]
      constructor
      · exact cleanupList_mem _ _ _ (by simp)
      · intro habs
        by_cases hpp : pyReplace p ".mp4" "_reencoded.mp4" = p
        · rw [hpp]
          exact cleanupList_mem _ _ _ (by simp)
        · refine cleanupList_absent _ _ _ ?_
          exact reencode_keeps_output_absent env.tool p (FS.write fs0 p 0) hpp
            (FS.exists_write_self fs0 p 0)
            (by rw [FS.exists_write_ne fs0 p _ 0 hpp]; exact habs)
    | some u =>
      simp only [hu]
      constructor
      · exact cleanupList_mem _ _ _ (by simp)
      · intro habs
        by_cases hpp : pyReplace p ".mp4" "_reencoded.mp4" = p
        · rw [hpp]
          exact cleanupList_mem _ _ _ (by simp)
        · refine cleanupList_absent _ _ _ ?_
          exact reencode_keeps_output_absent env.tool p (FS.write fs0 p 0) hpp
            (FS.exists_write_self fs0 p 0)
            (by rw [FS.exists_write_ne fs0 p _ 0 hpp]; exact habs)

/-- C2 amended: cleanup holds only on the paths that reach the cleanup
block.  In Video_bot: a run that skips staging (`url_ok`) creates no file
and leaves the filesystem unchanged, and a run that reaches the publish
step removes both the downloaded file and any re-encode temporary; but a
run that fails between download and publish returns false with the
downloaded file still on disk (see the counterexample).  In bot.py the
cleanup block always runs on non-raising paths, removing the single-media
path (and its re-encode temporary) and the paths of the first ten album
items; album items beyond the tenth are outside the truncated list and are
never removed. -/
theorem C2_amended :
    (∀ (env : VideoBot.RowEnv) (link : String) (fs0 : FS),
      env.url_ok = true → (VideoBot.process_single_row env link fs0).2 = fs0) ∧
    (∀ (env : VideoBot.RowEnv) (link : String) (fs0 : FS) (sc st p u : String),
      env.srt = some sc → ¬ sc = "" →
      VideoBot.parse_srt_content sc = some st → ¬ st = "" →
      optTruthy env.caption = true → env.url_ok = false →
      env.video = some p →
      (VideoBot.upload_to_tmpfiles env.up p).1 = some u →
      "http".data.isPrefixOf u.data = true →
      FS.exists (VideoBot.process_single_row env link fs0).2 p = false ∧
      (FS.exists fs0 (pyReplace p ".mp4" "_reencoded.mp4") = false →
        FS.exists (VideoBot.process_single_row env link fs0).2
          (pyReplace p ".mp4" "_reencoded.mp4") = false)) ∧
    (∀ (env : Bot.LinkEnv) (fs0 : FS) (p : String) (user : Option String),
      env.download = DownloadRet.triple (some (BotMedia.video p)) user →
      ¬ p = "" →
      FS.exists (Bot.process_single_link env fs0).2.1 p = false ∧
      (FS.exists fs0 (pyReplace p ".mp4" "_reencoded.mp4") = false →
        FS.exists (Bot.process_single_link env fs0).2.1
          (pyReplace p ".mp4" "_reencoded.mp4") = false)) ∧
    (∀ (env : Bot.LinkEnv) (fs0 : FS) (items0 : List (String × String))
       (user : Option String),
      env.download = DownloadRet.triple (some (BotMedia.album items0)) user →
      ∀ q ∈ (items0.take 10).map (fun x => x.1),
        FS.exists (Bot.process_single_link env fs0).2.1 q = false) :=
  ⟨fun env link fs0 hurl =>
     VideoBot.row_fs_unchanged_when_url_ok env link fs0 hurl,
   fun env link fs0 sc st p u hsrt hsc hparse hst hcap hurl hvid hup hhttp =>
     VideoBot.row_cleanup_on_publish env link fs0 sc st p u hsrt hsc hparse
       hst hcap hurl hvid hup hhttp,
   fun env fs0 p user hd hp => Bot.link_cleanup_video env fs0 p user hd hp,
   fun env fs0 items0 user hd q hq =>
     Bot.link_cleanup_album env fs0 items0 user hd q hq⟩

/-- Video_bot environment whose original URL is directly usable. -/
def c2wUrlEnv : VideoBot.RowEnv :=
  { srt := some "1\n00:00:00 --> 00:00:01\nhi"
    caption := some "cap"
    url_ok := true
    video := none
    tool := ToolOutcome.missing
    up := { post := .error (), head := .error (), get := .error () }
    pub := c8Env.pub }

/-- Bot pipeline environment with a downloaded video and a failing
upload. -/
def c2wBotEnv : Bot.LinkEnv :=
  { download := .triple (some (BotMedia.video "b.mp4")) (some "amy")
    analyze := some "cap"
    tool := ToolOutcome.missing
    up := fun _ => { post := .error (), head := .error (), get := .error () }
    pub := c6Env.pub }

/-- C2 witness: the amended theorem applied at concrete runs. -/
theorem C2_witness :
    (VideoBot.process_single_row c2wUrlEnv "L" [("keep.txt", 7)]).2
      = [("keep.txt", 7)] ∧
    FS.exists (VideoBot.process_single_row c8Env "L" []).2 "v.mp4" = false ∧
    FS.exists (Bot.process_single_link c2wBotEnv []).2.1 "b.mp4" = false ∧
    FS.exists (Bot.process_single_link c6Env []).2.1 "a0.jpg" = false :=
  ⟨C2_amended.1 c2wUrlEnv "L" [("keep.txt", 7)] rfl,
   (C2_amended.2.1 c8Env "L" [] "1\n00:00:00 --> 00:00:01\nhello" "hello"
      "v.mp4" "https://tmpfiles.org/dl/9/v.mp4" rfl (by decide) (by decide)
      (by decide) rfl rfl rfl (by decide) (by decide)).1,
   (C2_amended.2.2.1 c2wBotEnv [] "b.mp4" (some "amy") rfl (by decide)).1,
   C2_amended.2.2.2 c6Env [] c6Items (some "bob") rfl "a0.jpg" (by decide)⟩

/-! ## Claim C3 -/

/-- C3 failing input: an album link where the structured metadata succeeds
(`media_type = 8`), `album_download` raises, and the raw fallback payload's
first item carries no `carousel_media` key. -/
def c3DmEnv : DMEnv :=
  { media_pk := .ok 7
    media_info := .ok { media_type := some 8
                        product_type := ""
                        username := some "alice"
                        resources := [] }
    media_info_gql := .error ()
    media_info_a1 := .error ()
    private_request := .ok { items := [{ media_type := some 8
                                         product_type := ""
                                         username := some "alice"
                                         video_versions := []
                                         video_url := none
                                         image_candidates := []
                                         carousel_media := none }] }
    photo_download := .error ()
    clip_download := .error ()
    video_download := .error ()
    album_download := .error ()
    direct_get := .ok () }

/-- Pipeline environment built on the failing download. -/
def c3LinkEnv : Bot.LinkEnv :=
  { download := Bot.download_media c3DmEnv
    analyze := some "cap"
    tool := ToolOutcome.missing
    up := fun _ => { post := .error (), head := .error (), get := .error () }
    pub := c6Env.pub }

/-- C3 (code bug): on this input `download_media` falls off the end of the
function, returning a bare `None` where every explicit failure path returns
the `(None, None, None)` triple; the three-variable unpacking at bot.py
line 445 then raises a `TypeError` that propagates out of
`process_single_link` to the driver loop, contradicting the claim that the
pipeline never raises. -/
theorem C3_pipeline_raises :
    Bot.download_media c3DmEnv = DownloadRet.bareNone ∧
    (Bot.process_single_link c3LinkEnv []).1 = PyResult.exn := by
  constructor <;> decide
